import Mathlib

/-!
Verification of the conversational command-authorization engine of the
cameroon-voice-ai repository, by a shallow embedding in Lean.

Conventions of the embedding:
- Python floats are modelled as exact rationals.  All amounts, balances and
  thresholds occurring in the code are small decimals, for which Python float
  comparison and arithmetic agree with exact rational arithmetic.
- Redis-backed state (velocity sorted sets, beneficiary sets, OTP hashes) is
  modelled as explicit values threaded through the functions; every redis
  operation of the source is mirrored by an explicit list or record update.
- Wall-clock readings (datetime.utcnow) become explicit parameters:
  the current hour for the unusual-time heuristic, a rational timestamp for
  the velocity window, a natural tick for updated_at fields.
- One-way hash functions of the source (sha256 for OTP codes, md5 for
  beneficiary names) are parameters of the model; the theorems below hold
  for every choice of hash function, and concrete witnesses instantiate
  them with a fixed stand-in.
-/

/-- Python str.lower, modelled character-wise (ASCII case mapping; the
theorems never depend on the case mapping itself). -/
def pyLower (s : String) : String := String.mk (s.toList.map Char.toLower)

/-- Python str.strip(): drop whitespace from both ends. -/
def pyStrip (s : String) : String :=
  String.mk (((s.toList.dropWhile Char.isWhitespace).reverse.dropWhile
    Char.isWhitespace).reverse)

namespace Fraud

/-- Model of the redis state behind FraudDetector (fraud_detector.py).
`velocity` is the member set of the sorted set fraud:velocity:user, whose
members are str(timestamp), hence timestamps, one member per distinct
timestamp value.  `beneficiaries` is the set fraud:beneficiaries:user of
hashed beneficiary names. -/
structure FraudState where
  velocity : List ℚ
  beneficiaries : List String
deriving Repr, DecidableEq

def HIGH_AMOUNT_THRESHOLD : ℚ := 1000
def VELOCITY_LIMIT : ℕ := 3
def VELOCITY_WINDOW_MINUTES : ℕ := 10
def RISK_LOW : ℕ := 0
def RISK_HIGH : ℕ := 75
def VELOCITY_HIGH_RISK_POINTS : ℕ := 40
def VELOCITY_MEDIUM_RISK_POINTS : ℕ := 20
def UNUSUAL_TIME_HIGH_RISK_POINTS : ℕ := 15
def UNUSUAL_TIME_MEDIUM_RISK_POINTS : ℕ := 10
def ROUND_AMOUNT_MIN : ℚ := 500
def ROUND_AMOUNT_POINTS : ℕ := 10
def NEW_BENEFICIARY_POINTS : ℕ := 20
def HIGH_AMOUNT_POINTS : ℕ := 30

/-- redis zcount over the member set: number of recorded timestamps t with
lo ≤ t ≤ hi. -/
def zcount (l : List ℚ) (lo hi : ℚ) : ℕ :=
  (l.filter (fun t => decide (lo ≤ t) && decide (t ≤ hi))).length

/-- redis zadd with member str(ts) and score ts: adding an already present
member only updates its score, so the member set gains ts exactly when ts
was absent. -/
def zaddTimestamp (l : List ℚ) (ts : ℚ) : List ℚ :=
  if ts ∈ l then l else ts :: l

/-- FraudDetector._check_velocity: count of transfers recorded in the last
ten minutes, mapped to risk points. -/
def check_velocity (st : FraudState) (now : ℚ) : ℕ :=
  let count := zcount st.velocity (now - (VELOCITY_WINDOW_MINUTES : ℚ) * 60) now
  if count ≥ VELOCITY_LIMIT then VELOCITY_HIGH_RISK_POINTS
  else if count ≥ 2 then VELOCITY_MEDIUM_RISK_POINTS
  else 0

/-- FraudDetector._record_transaction_attempt: zadd of the current
timestamp into the velocity sorted set. -/
def record_transaction_attempt (st : FraudState) (now : ℚ) : FraudState :=
  { st with velocity := zaddTimestamp st.velocity now }

/-- FraudDetector._is_new_beneficiary: membership test of the hashed
lowercased name; on a miss the hash is added to the set and True returned. -/
def is_new_beneficiary (md5h : String → String) (st : FraudState)
    (beneficiary : String) : Bool × FraudState :=
  let h := md5h (pyLower beneficiary)
  if h ∈ st.beneficiaries then (false, st)
  else (true, { st with beneficiaries := h :: st.beneficiaries })

/-- FraudDetector._check_unusual_time, on the current UTC hour. -/
def check_unusual_time (hour : ℕ) : ℕ :=
  if hour < 5 then UNUSUAL_TIME_HIGH_RISK_POINTS
  else if 22 ≤ hour ∧ hour < 24 then UNUSUAL_TIME_MEDIUM_RISK_POINTS
  else 0

/-- Python float test amount % 100 == 0, exact on floats: amount is an
integer multiple of 100, that is an integer divisible by 100. -/
def isMultipleOf100 (a : ℚ) : Bool := a.den == 1 && a.num % 100 == 0

/-- Amount factor: +30 above the high-amount threshold (FACTOR 1). -/
def highAmountPoints (a : ℚ) : ℕ :=
  if a > HIGH_AMOUNT_THRESHOLD then HIGH_AMOUNT_POINTS else 0

/-- Round-number factor: +10 for an exact multiple of 100 at or above the
minimum (FACTOR 5). -/
def roundAmountPoints (a : ℚ) : ℕ :=
  if isMultipleOf100 a ∧ a ≥ ROUND_AMOUNT_MIN then ROUND_AMOUNT_POINTS else 0

/-- FraudDetector.assess_risk: the additive risk score, capped at 100,
followed by recording the transaction attempt.  Returns the score and the
updated redis state (beneficiary set possibly extended by FACTOR 3, velocity
set extended by the final zadd). -/
def assess_risk (md5h : String → String) (st : FraudState) (amount : ℚ)
    (beneficiary : String) (hour : ℕ) (now : ℚ) : ℕ × FraudState :=
  let s1 := highAmountPoints amount
  let s2 := check_velocity st now
  let isNewSt := is_new_beneficiary md5h st beneficiary
  let s3 := if isNewSt.1 then NEW_BENEFICIARY_POINTS else 0
  let s4 := check_unusual_time hour
  let s5 := roundAmountPoints amount
  let score := min (s1 + s2 + s3 + s4 + s5) 100
  (score, record_transaction_attempt isNewSt.2 now)

/-- Parameters of one assess_risk call, used to fold sequences of calls. -/
structure CallParams where
  amount : ℚ
  beneficiary : String
  hour : ℕ
  now : ℚ

/-- State reached after a sequence of assess_risk calls. -/
def foldCalls (md5h : String → String) (st : FraudState)
    (calls : List CallParams) : FraudState :=
  calls.foldl (fun s p => (assess_risk md5h s p.amount p.beneficiary p.hour p.now).2) st

/-- Concrete stand-in for the md5 hexdigest used by concrete witnesses and
counterexamples; every universal theorem below holds for an arbitrary hash. -/
def md5Model (s : String) : String := "md5-" ++ s

end Fraud

namespace OTP

def OTP_LENGTH : ℕ := 6
def OTP_VALIDITY_MINUTES : ℕ := 5
def MAX_ATTEMPTS : ℕ := 3

/-- Model of the redis hash stored under otp:user:conversation by
OTPService.generate_otp (security.py): the sha256 hexdigest of the code,
the action, the creation time, the attempt counter and the extra metadata
key-value pairs. -/
structure OTPRecord where
  otpHash : String
  action : String
  created_at : ℕ
  attempts : ℕ
  metadata : List (String × String)
deriving Repr, DecidableEq

/-- Error messages of the invalid branches of verify_otp. -/
inductive OTPError
  | expiredOrInvalid
  | maxAttemptsReached
  | incorrect (remaining : ℕ)
deriving Repr, DecidableEq

/-- Return value of verify_otp: either valid with the action and metadata
of the record, or invalid with an error. -/
inductive VerifyResult
  | valid (action : String) (metadata : List (String × String))
  | invalid (error : OTPError)
deriving Repr, DecidableEq

def VerifyResult.isValid : VerifyResult → Bool
  | .valid _ _ => true
  | .invalid _ => false

/-- OTPService.generate_otp: store a fresh record with the hashed code and
attempts 0.  The hash function sha256-hexdigest is a parameter. -/
def generate_otp (sha256h : String → String) (code action : String)
    (created : ℕ) (metadata : List (String × String)) : OTPRecord :=
  { otpHash := sha256h code, action := action, created_at := created,
    attempts := 0, metadata := metadata }

/-- OTPService.verify_otp on the record stored for the (user, conversation)
key: absent record means expired or never issued; an exhausted attempt
counter deletes the record; a hash mismatch increments the counter and
reports the remaining attempts; a match deletes the record and returns
valid with the action and metadata.  Returns the record state after the
call and the result. -/
def verify_otp (sha256h : String → String) (store : Option OTPRecord)
    (code : String) : Option OTPRecord × VerifyResult :=
  match store with
  | none => (none, .invalid .expiredOrInvalid)
  | some r =>
    if r.attempts ≥ MAX_ATTEMPTS then
      (none, .invalid .maxAttemptsReached)
    else if sha256h code ≠ r.otpHash then
      (some { r with attempts := r.attempts + 1 },
       .invalid (.incorrect (MAX_ATTEMPTS - r.attempts - 1)))
    else
      (none, .valid r.action r.metadata)

/-- OTPService.cancel_otp: delete the record. -/
def cancel_otp (_store : Option OTPRecord) : Option OTPRecord := none

end OTP

namespace Orchestrator

def OTP_AMOUNT_THRESHOLD : ℚ := 500
def OTP_RISK_THRESHOLD : ℕ := Fraud.RISK_HIGH

def MIN_TRANSFER_AMOUNT : ℚ := 1 / 100
def MAX_TRANSFER_AMOUNT : ℚ := 50000
def MAX_DAILY_TRANSFER : ℚ := 10000

/-- BankingValidator.validate_amount (validators.py): None is rejected,
then the amount must lie between the minimum and maximum transfer amount. -/
def validate_amount : Option ℚ → Bool
  | none => false
  | some a => if a < MIN_TRANSFER_AMOUNT then false
              else if a > MAX_TRANSFER_AMOUNT then false
              else true

/-- BankingValidator.check_daily_limit; the orchestrator calls it with the
default today_total of 0. -/
def check_daily_limit (today_total new_amount : ℚ) : Bool :=
  ¬ (today_total + new_amount > MAX_DAILY_TRANSFER)

/-- Environment of one _handle_virement call: the live balance returned by
the banking api, the result of check_beneficiary for the destinataire, and
the result of execute_transfer (some transaction id on success, none on
failure). -/
structure VirementEnv where
  balance : ℚ
  beneficiaryExists : Bool
  executeTransfer : Option String
deriving Repr, DecidableEq

/-- The distinct return dictionaries of _handle_virement
(orchestrator.py).  otpRequired is the single branch whose dictionary
carries requires_otp = True and status pending with an OTP prompt;
beneficiaryMissing is the earlier pending branch asking to add the
beneficiary. -/
inductive VirementOutcome
  | invalidAmount
  | dailyLimitExceeded
  | insufficientBalance
  | beneficiaryMissing
  | otpRequired
  | transferDone (transaction_id : String)
  | transferFailed
deriving Repr, DecidableEq

/-- Status field of each return dictionary of _handle_virement. -/
def VirementOutcome.status : VirementOutcome → String
  | .invalidAmount => "failed"
  | .dailyLimitExceeded => "failed"
  | .insufficientBalance => "failed"
  | .beneficiaryMissing => "pending"
  | .otpRequired => "pending"
  | .transferDone _ => "success"
  | .transferFailed => "failed"

/-- requires_otp field of each return dictionary (only the OTP branch sets
it to True; all other dictionaries omit it, which reads as false). -/
def VirementOutcome.requiresOtp : VirementOutcome → Bool
  | .otpRequired => true
  | _ => false

/-- BankingOrchestrator._handle_virement: validate the amount, check the
daily limit, check the live balance, check that the banking api knows the
beneficiary (otherwise return pending without risk scoring), assess fraud
risk, decide requires_otp, and either issue an OTP or execute the
transfer.  Returns the outcome together with the fraud state after the
call (unchanged on every branch before risk scoring). -/
def handle_virement (env : VirementEnv) (md5h : String → String)
    (fs : Fraud.FraudState) (hour : ℕ) (now : ℚ)
    (montant : Option ℚ) (destinataire : String) :
    VirementOutcome × Fraud.FraudState :=
  if ¬ validate_amount montant then (.invalidAmount, fs)
  else
    match montant with
    | none => (.invalidAmount, fs)
    | some m =>
      if ¬ check_daily_limit 0 m then (.dailyLimitExceeded, fs)
      else if m > env.balance then (.insufficientBalance, fs)
      else if ¬ env.beneficiaryExists then (.beneficiaryMissing, fs)
      else
        let scored := Fraud.assess_risk md5h fs m destinataire hour now
        let requires_otp :=
          m > OTP_AMOUNT_THRESHOLD ∨ scored.1 > OTP_RISK_THRESHOLD ∨
            ¬ env.beneficiaryExists
        if requires_otp then (.otpRequired, scored.2)
        else
          match env.executeTransfer with
          | some txid => (.transferDone txid, scored.2)
          | none => (.transferFailed, scored.2)

end Orchestrator

namespace Conv

/-- FlowType enum of app/core/conversation/state.py. -/
inductive FlowType
  | NONE | ACCOUNT_CREATION | WITHDRAWAL | TOPUP
  | BALANCE_INQUIRY | TRANSACTION_HISTORY | TRANSFER
deriving Repr, DecidableEq

/-- String value of each FlowType member. -/
def FlowType.value : FlowType → String
  | .NONE => "none"
  | .ACCOUNT_CREATION => "account_creation"
  | .WITHDRAWAL => "withdrawal"
  | .TOPUP => "topup"
  | .BALANCE_INQUIRY => "balance_inquiry"
  | .TRANSACTION_HISTORY => "transaction_history"
  | .TRANSFER => "transfer"

/-- FlowType(value) lookup; from_dict only applies it to stored values. -/
def FlowType.ofValue : String → FlowType
  | "account_creation" => .ACCOUNT_CREATION
  | "withdrawal" => .WITHDRAWAL
  | "topup" => .TOPUP
  | "balance_inquiry" => .BALANCE_INQUIRY
  | "transaction_history" => .TRANSACTION_HISTORY
  | "transfer" => .TRANSFER
  | _ => .NONE

/-- FlowStep enum of app/core/conversation/state.py. -/
inductive FlowStep
  | INIT | CONFIRM | COMPLETE
  | ASK_NAME | ASK_AGE | ASK_SEX | ASK_GROUPEMENT
  | ASK_AMOUNT | ASK_RECEIVER | ASK_PIN
deriving Repr, DecidableEq

/-- String value of each FlowStep member. -/
def FlowStep.value : FlowStep → String
  | .INIT => "init"
  | .CONFIRM => "confirm"
  | .COMPLETE => "complete"
  | .ASK_NAME => "ask_name"
  | .ASK_AGE => "ask_age"
  | .ASK_SEX => "ask_sex"
  | .ASK_GROUPEMENT => "ask_groupement"
  | .ASK_AMOUNT => "ask_amount"
  | .ASK_RECEIVER => "ask_receiver"
  | .ASK_PIN => "ask_pin"

/-- FlowStep(value) lookup; from_dict only applies it to stored values. -/
def FlowStep.ofValue : String → FlowStep
  | "confirm" => .CONFIRM
  | "complete" => .COMPLETE
  | "ask_name" => .ASK_NAME
  | "ask_age" => .ASK_AGE
  | "ask_sex" => .ASK_SEX
  | "ask_groupement" => .ASK_GROUPEMENT
  | "ask_amount" => .ASK_AMOUNT
  | "ask_receiver" => .ASK_RECEIVER
  | "ask_pin" => .ASK_PIN
  | _ => .INIT

/-- Values stored in collected_data: the flows store strings, ints
(groupement_id) and floats (withdrawal and topup amounts). -/
inductive PyVal
  | s (v : String)
  | i (v : ℤ)
  | q (v : ℚ)
deriving Repr, DecidableEq

/-- Python dict assignment d[k] = v. -/
def dictSet (d : List (String × PyVal)) (k : String) (v : PyVal) :
    List (String × PyVal) :=
  (d.filter (fun p => p.1 ≠ k)) ++ [(k, v)]

/-- Python d.get(k). -/
def dictGet (d : List (String × PyVal)) (k : String) : Option PyVal :=
  (d.find? (fun p => p.1 == k)).map (·.2)

/-- Python d.pop(k, None). -/
def dictPop (d : List (String × PyVal)) (k : String) : List (String × PyVal) :=
  d.filter (fun p => p.1 ≠ k)

/-- ConversationState dataclass of app/core/conversation/state.py.
`lang` mirrors the attribute assigned dynamically by
ConversationManager.process_message; it is NOT a declared dataclass field:
none models the attribute being unset, as on every freshly constructed or
deserialized instance.  Timestamps are modelled as abstract ticks; the
isoformat serialization of datetimes is a bijection, modelled by storing
the tick itself. -/
structure ConversationState where
  conversation_id : String
  user_id : String
  phone_number : String
  flow_type : FlowType
  flow_step : Option FlowStep
  collected_data : List (String × PyVal)
  account_id : Option String
  account_balance : Option ℚ
  phone_checked : Bool
  account_exists : Bool
  attempts : ℕ
  max_attempts : ℕ
  created_at : ℕ
  updated_at : ℕ
  lang : Option String
deriving Repr, DecidableEq

/-- ConversationState(...) with the dataclass defaults. -/
def mkState (cid uid phone : String) (now : ℕ) : ConversationState :=
  { conversation_id := cid, user_id := uid, phone_number := phone,
    flow_type := .NONE, flow_step := none, collected_data := [],
    account_id := none, account_balance := none,
    phone_checked := false, account_exists := false,
    attempts := 0, max_attempts := 3,
    created_at := now, updated_at := now, lang := none }

/-- ConversationState.reset_flow. -/
def reset_flow (now : ℕ) (st : ConversationState) : ConversationState :=
  { st with flow_type := .NONE, flow_step := none, collected_data := [],
            attempts := 0, updated_at := now }

/-- ConversationState.start_flow. -/
def start_flow (ft : FlowType) (step : FlowStep) (now : ℕ)
    (st : ConversationState) : ConversationState :=
  { st with flow_type := ft, flow_step := some step, collected_data := [],
            attempts := 0, updated_at := now }

/-- ConversationState.next_step: move to the next step and reset attempts. -/
def next_step (step : FlowStep) (now : ℕ) (st : ConversationState) :
    ConversationState :=
  { st with flow_step := some step, attempts := 0, updated_at := now }

/-- ConversationState.add_data. -/
def add_data (k : String) (v : PyVal) (now : ℕ) (st : ConversationState) :
    ConversationState :=
  { st with collected_data := dictSet st.collected_data k v, updated_at := now }

/-- ConversationState.get_data with default None. -/
def get_data (st : ConversationState) (k : String) : Option PyVal :=
  dictGet st.collected_data k

/-- ConversationState.is_in_flow. -/
def is_in_flow (st : ConversationState) : Bool :=
  decide (st.flow_type ≠ FlowType.NONE)

/-- ConversationState.increment_attempts: increment, then report whether
the new counter reached max_attempts. -/
def increment_attempts (now : ℕ) (st : ConversationState) :
    ConversationState × Bool :=
  let st1 := { st with attempts := st.attempts + 1, updated_at := now }
  (st1, decide (st1.attempts ≥ st.max_attempts))

/-- ConversationState.mark_phone_checked. -/
def mark_phone_checked (ex : Bool) (now : ℕ) (st : ConversationState) :
    ConversationState :=
  { st with phone_checked := true, account_exists := ex, updated_at := now }

end Conv

namespace Conv

/-- Responses produced by the embedded flows and manager branches.  Each
constructor stands for one distinct literal message of the source;
`prompt flow key` stands for the template FLOW_PROMPTS[flow][key] of
app/config/prompts.py. -/
inductive Msg
  | empty
  | prompt (flow key : String)
  | noAccountYet
  | needAccountWithdrawal
  | needAccountDeposit
  | receiverAbort
  | amountAbort
  | pinAbort
  | amountNotPositive
  | insufficientBalanceTransfer
  | changeAmount
  | minWithdrawal
  | maxWithdrawal
  | withdrawAmountExample
  | changeWithdrawAmount
  | confirmWithdrawRetry
  | minDeposit
  | maxDeposit
  | topupAmountExample
  | changeDepositAmount
  | confirmDepositRetry
  | nameAbort
  | nameRetry
  | ageAbort
  | ageRetry
  | ageTooYoung
  | ageTooOld
  | sexAbort
  | sexRetry
  | groupementAbort
  | groupementRetry
  | whatToChange
  | changeName
  | changeAge
  | changeSex
  | confirmAllCorrect
deriving Repr, DecidableEq

/-- Account record of the backend account service, restricted to the
fields the flows read. -/
structure Account where
  id : String
  balance : ℚ
deriving Repr, DecidableEq

/-- Python str.replace(pat, rep) on character lists, for a non-empty
pattern p :: ps: left-to-right, non-overlapping.  The recursion is driven
by a fuel argument (one unit per visited position, the list length
suffices) so that the function stays structurally recursive. -/
def replaceSubAux (p : Char) (ps rep : List Char) :
    ℕ → List Char → List Char
  | _, [] => []
  | 0, l => l
  | fuel + 1, c :: rest =>
    if (p :: ps).isPrefixOf (c :: rest) then
      rep ++ replaceSubAux p ps rep fuel (rest.drop ps.length)
    else
      c :: replaceSubAux p ps rep fuel rest

/-- Python str.replace(pat, rep) on character lists, for a non-empty
pattern p :: ps. -/
def replaceSub (p : Char) (ps rep l : List Char) : List Char :=
  replaceSubAux p ps rep l.length l

/-- Python str.lower on character lists. -/
def lowerList (l : List Char) : List Char := l.map Char.toLower

/-- First match of the regex (\d+): the first maximal run of digits. -/
def firstDigitRun (l : List Char) : List Char :=
  (l.dropWhile (fun c => ¬ c.isDigit)).takeWhile Char.isDigit

/-- Numeric value of a digit string, as Python int() computes it. -/
def digitsToNat (l : List Char) : ℕ :=
  l.foldl (fun n c => 10 * n + (c.toNat - 48)) 0

/-- TransferFlow._extract_phone: keep only digits, require at least 8. -/
def transfer_extract_phone (t : String) : Option String :=
  let ds := t.toList.filter Char.isDigit
  if ds.length < 8 then none else some (String.mk ds)

/-- TransferFlow._extract_amount: lowercase, strip the currency words
xof, xaf, fcfa, francs, strip spaces, commas and periods, then int() of
the first digit run. -/
def transfer_extract_amount (t : String) : Option ℤ :=
  let c0 := lowerList t.toList
  let c1 := replaceSub 'x' ['o', 'f'] [] c0
  let c2 := replaceSub 'x' ['a', 'f'] [] c1
  let c3 := replaceSub 'f' ['c', 'f', 'a'] [] c2
  let c4 := replaceSub 'f' ['r', 'a', 'n', 'c', 's'] [] c3
  let c5 := replaceSub ' ' [] [] c4
  let c6 := replaceSub ',' [] [] c5
  let c7 := replaceSub '.' [] [] c6
  let run := firstDigitRun c7
  if run = [] then none else some (Int.ofNat (digitsToNat run))

/-- TransferFlow._extract_pin: strip, remove spaces, accept a pure digit
string of length 4, 5 or 6. -/
def transfer_extract_pin (t : String) : Option String :=
  let p := (pyStrip t).toList.filter (fun c => c ≠ ' ')
  if p ≠ [] ∧ p.all Char.isDigit ∧
      (p.length = 4 ∨ p.length = 5 ∨ p.length = 6) then
    some (String.mk p)
  else none

def transferYes : List String :=
  ["yes", "y", "ok", "okay", "confirm", "go ahead", "proceed"]

def transferNo : List String := ["no", "n", "cancel", "stop"]

/-- TransferFlow.start: ensure an account (cached id or backend lookup by
phone), else refuse; then start the flow at ASK_RECEIVER with cleared
data. -/
def transfer_start (backend : String → Option Account) (now : ℕ)
    (st : ConversationState) : ConversationState × Msg :=
  match st.account_id with
  | none =>
    match backend st.phone_number with
    | some acc =>
      let st1 := { st with account_id := some acc.id,
                           account_balance := some acc.balance }
      (start_flow .TRANSFER .ASK_RECEIVER now st1, .prompt "transfer" "start")
    | none => (st, .noAccountYet)
  | some _ =>
    (start_flow .TRANSFER .ASK_RECEIVER now st, .prompt "transfer" "start")

/-- TransferFlow._process_receiver. -/
def transfer_process_receiver (now : ℕ) (st : ConversationState)
    (input : String) : ConversationState × Msg × Bool :=
  match transfer_extract_phone input with
  | some r =>
    let st1 := add_data "receiverPhoneNumber" (.s r) now st
    (next_step .ASK_AMOUNT now st1, .prompt "transfer" "ask_amount", false)
  | none =>
    let ib := increment_attempts now st
    if ib.2 then (reset_flow now ib.1, .receiverAbort, true)
    else (ib.1, .prompt "transfer" "ask_receiver_retry", false)

/-- Accepting branch of TransferFlow._process_amount: store str(amount)
and advance to ASK_PIN. -/
def transfer_accept_amount (now : ℕ) (st : ConversationState) (a : ℤ) :
    ConversationState × Msg × Bool :=
  let st1 := add_data "amount" (.s (toString a)) now st
  (next_step .ASK_PIN now st1, .prompt "transfer" "ask_pin", false)

/-- TransferFlow._process_amount: on extraction, reject non-positive
amounts and amounts over the cached balance with corrective messages (no
attempt consumed); otherwise advance.  On failed extraction, consume an
attempt and abort at max_attempts. -/
def transfer_process_amount (now : ℕ) (st : ConversationState)
    (input : String) : ConversationState × Msg × Bool :=
  match transfer_extract_amount input with
  | some a =>
    if a ≤ 0 then (st, .amountNotPositive, false)
    else if (match st.account_balance with
             | some b => decide ((a : ℚ) > b)
             | none => false) then
      (st, .insufficientBalanceTransfer, false)
    else
      transfer_accept_amount now st a
  | none =>
    let ib := increment_attempts now st
    if ib.2 then (reset_flow now ib.1, .amountAbort, true)
    else (ib.1, .prompt "transfer" "ask_amount_retry", false)

/-- TransferFlow._process_pin. -/
def transfer_process_pin (now : ℕ) (st : ConversationState)
    (input : String) : ConversationState × Msg × Bool :=
  match transfer_extract_pin input with
  | some p =>
    let st1 := add_data "pin" (.s p) now st
    (next_step .CONFIRM now st1, .prompt "transfer" "confirm", false)
  | none =>
    let ib := increment_attempts now st
    if ib.2 then (reset_flow now ib.1, .pinAbort, true)
    else (ib.1, .prompt "transfer" "ask_pin_retry", false)

/-- TransferFlow._process_confirmation: yes advances to COMPLETE, no goes
back to ASK_AMOUNT dropping amount and pin, anything else re-prompts. -/
def transfer_process_confirmation (now : ℕ) (st : ConversationState)
    (input : String) : ConversationState × Msg × Bool :=
  let lowered := pyLower (pyStrip input)
  if transferYes.contains lowered then
    (next_step .COMPLETE now st, .empty, true)
  else if transferNo.contains lowered then
    let st1 := next_step .ASK_AMOUNT now st
    let st2 := { st1 with collected_data :=
                   dictPop (dictPop st1.collected_data "amount") "pin" }
    (st2, .changeAmount, false)
  else (st, .prompt "transfer" "confirm_retry", false)

/-- TransferFlow.process: dispatch on the current step. -/
def transfer_process (now : ℕ) (st : ConversationState) (input : String) :
    ConversationState × Msg × Bool :=
  match st.flow_step with
  | some .ASK_RECEIVER => transfer_process_receiver now st input
  | some .ASK_AMOUNT => transfer_process_amount now st input
  | some .ASK_PIN => transfer_process_pin now st input
  | some .CONFIRM => transfer_process_confirmation now st input
  | _ => (st, .empty, false)

end Conv

namespace Conv

def WITHDRAWAL_MIN : ℚ := 500
def WITHDRAWAL_MAX : ℚ := 500000
def TOPUP_MIN : ℚ := 500
def TOPUP_MAX : ℚ := 2000000

/-- Interface of app/core/extraction DataExtractor, as consumed by the
withdrawal, topup and account-creation flows.  The flows are modelled as
functions of this interface; the theorems below hold for every extractor
behaviour. -/
structure DataExtractorM where
  extract_amount : String → Option ℚ
  is_confirmation : String → Option Bool
  extract_name : String → Option String
  extract_age : String → Option ℕ
  extract_sex : String → Option String
  extract_groupement : String → Option ℤ

/-- Failure tail of WithdrawalFlow._process_amount (and TopUpFlow): one
attempt consumed, abort with reset at max_attempts. -/
def amount_fail (retryMsg : Msg) (now : ℕ) (st : ConversationState) :
    ConversationState × Msg × Bool :=
  let ib := increment_attempts now st
  if ib.2 then (reset_flow now ib.1, .amountAbort, true)
  else (ib.1, retryMsg, false)

/-- WithdrawalFlow.start: same account guard as the transfer flow. -/
def withdrawal_start (backend : String → Option Account) (now : ℕ)
    (st : ConversationState) : ConversationState × Msg :=
  match st.account_id with
  | none =>
    match backend st.phone_number with
    | some acc =>
      let st1 := { st with account_id := some acc.id,
                           account_balance := some acc.balance }
      (start_flow .WITHDRAWAL .ASK_AMOUNT now st1, .prompt "withdrawal" "start")
    | none => (st, .noAccountYet)
  | some _ =>
    (start_flow .WITHDRAWAL .ASK_AMOUNT now st, .prompt "withdrawal" "start")

/-- WithdrawalFlow._process_amount: the truthiness test `if amount:` is
false for None and for 0.0; an extracted amount below the minimum, above
the maximum or over the cached balance re-prompts with a corrective
message without consuming an attempt; otherwise advance to CONFIRM. -/
def withdrawal_process_amount (ext : DataExtractorM) (now : ℕ)
    (st : ConversationState) (input : String) :
    ConversationState × Msg × Bool :=
  match ext.extract_amount input with
  | some a =>
    if a = 0 then amount_fail .withdrawAmountExample now st
    else if a < WITHDRAWAL_MIN then (st, .minWithdrawal, false)
    else if a > WITHDRAWAL_MAX then (st, .maxWithdrawal, false)
    else if (match st.account_balance with
             | some b => decide (a > b)
             | none => false) then
      (st, .prompt "withdrawal" "insufficient_funds", false)
    else
      let st1 := add_data "amount" (.q a) now st
      (next_step .CONFIRM now st1, .prompt "withdrawal" "confirm", false)
  | none => amount_fail .withdrawAmountExample now st

/-- WithdrawalFlow._process_confirmation. -/
def withdrawal_process_confirmation (ext : DataExtractorM) (now : ℕ)
    (st : ConversationState) (input : String) :
    ConversationState × Msg × Bool :=
  match ext.is_confirmation input with
  | some true => (next_step .COMPLETE now st, .empty, true)
  | some false =>
    let st1 := next_step .ASK_AMOUNT now st
    ({ st1 with collected_data := dictPop st1.collected_data "amount" },
     .changeWithdrawAmount, false)
  | none => (st, .confirmWithdrawRetry, false)

/-- WithdrawalFlow.process. -/
def withdrawal_process (ext : DataExtractorM) (now : ℕ)
    (st : ConversationState) (input : String) :
    ConversationState × Msg × Bool :=
  match st.flow_step with
  | some .ASK_AMOUNT => withdrawal_process_amount ext now st input
  | some .CONFIRM => withdrawal_process_confirmation ext now st input
  | _ => (st, .empty, false)

/-- TopUpFlow.start. -/
def topup_start (backend : String → Option Account) (now : ℕ)
    (st : ConversationState) : ConversationState × Msg :=
  match st.account_id with
  | none =>
    match backend st.phone_number with
    | some acc =>
      let st1 := { st with account_id := some acc.id,
                           account_balance := some acc.balance }
      (start_flow .TOPUP .ASK_AMOUNT now st1, .prompt "topup" "start")
    | none => (st, .noAccountYet)
  | some _ =>
    (start_flow .TOPUP .ASK_AMOUNT now st, .prompt "topup" "start")

/-- TopUpFlow._process_amount: like the withdrawal flow but with the topup
bounds and no balance check. -/
def topup_process_amount (ext : DataExtractorM) (now : ℕ)
    (st : ConversationState) (input : String) :
    ConversationState × Msg × Bool :=
  match ext.extract_amount input with
  | some a =>
    if a = 0 then amount_fail .topupAmountExample now st
    else if a < TOPUP_MIN then (st, .minDeposit, false)
    else if a > TOPUP_MAX then (st, .maxDeposit, false)
    else
      let st1 := add_data "amount" (.q a) now st
      (next_step .CONFIRM now st1, .prompt "topup" "confirm", false)
  | none => amount_fail .topupAmountExample now st

/-- TopUpFlow._process_confirmation. -/
def topup_process_confirmation (ext : DataExtractorM) (now : ℕ)
    (st : ConversationState) (input : String) :
    ConversationState × Msg × Bool :=
  match ext.is_confirmation input with
  | some true => (next_step .COMPLETE now st, .empty, true)
  | some false =>
    let st1 := next_step .ASK_AMOUNT now st
    ({ st1 with collected_data := dictPop st1.collected_data "amount" },
     .changeDepositAmount, false)
  | none => (st, .confirmDepositRetry, false)

/-- TopUpFlow.process. -/
def topup_process (ext : DataExtractorM) (now : ℕ) (st : ConversationState)
    (input : String) : ConversationState × Msg × Bool :=
  match st.flow_step with
  | some .ASK_AMOUNT => topup_process_amount ext now st input
  | some .CONFIRM => topup_process_confirmation ext now st input
  | _ => (st, .empty, false)

/-- One groupement of app/config GROUPEMENTS. -/
structure Groupement where
  id : ℤ
  name : String
  token : String
deriving Repr, DecidableEq

/-- Generic failure tail shared by the account-creation steps. -/
def account_fail (abortMsg retryMsg : Msg) (now : ℕ)
    (st : ConversationState) : ConversationState × Msg × Bool :=
  let ib := increment_attempts now st
  if ib.2 then (reset_flow now ib.1, abortMsg, true)
  else (ib.1, retryMsg, false)

/-- AccountCreationFlow.start. -/
def account_start (now : ℕ) (st : ConversationState) :
    ConversationState × Msg :=
  (start_flow .ACCOUNT_CREATION .ASK_NAME now st,
   .prompt "account_creation" "start")

/-- AccountCreationFlow._process_name; `if name:` is false for None and
for the empty string. -/
def account_process_name (ext : DataExtractorM) (now : ℕ)
    (st : ConversationState) (input : String) :
    ConversationState × Msg × Bool :=
  match ext.extract_name input with
  | some name =>
    if name = "" then account_fail .nameAbort .nameRetry now st
    else
      let st1 := add_data "full_name" (.s name) now st
      (next_step .ASK_AGE now st1, .prompt "account_creation" "ask_age", false)
  | none => account_fail .nameAbort .nameRetry now st

/-- AccountCreationFlow._process_age: an understood age below 18 or above
120 re-prompts with a corrective message without consuming an attempt;
`if age:` is false for None and for 0. -/
def account_process_age (ext : DataExtractorM) (now : ℕ)
    (st : ConversationState) (input : String) :
    ConversationState × Msg × Bool :=
  match ext.extract_age input with
  | some age =>
    if age = 0 then account_fail .ageAbort .ageRetry now st
    else if age < 18 then (st, .ageTooYoung, false)
    else if age > 120 then (st, .ageTooOld, false)
    else
      let st1 := add_data "age" (.s (toString age)) now st
      (next_step .ASK_SEX now st1, .prompt "account_creation" "ask_sex", false)
  | none => account_fail .ageAbort .ageRetry now st

/-- AccountCreationFlow._process_sex. -/
def account_process_sex (ext : DataExtractorM) (now : ℕ)
    (st : ConversationState) (input : String) :
    ConversationState × Msg × Bool :=
  match ext.extract_sex input with
  | some sx =>
    if sx = "" then account_fail .sexAbort .sexRetry now st
    else
      let st1 := add_data "sex" (.s sx) now st
      (next_step .ASK_GROUPEMENT now st1,
       .prompt "account_creation" "ask_groupement", false)
  | none => account_fail .sexAbort .sexRetry now st

/-- AccountCreationFlow._process_groupement. -/
def account_process_groupement (ext : DataExtractorM)
    (gs : List Groupement) (now : ℕ) (st : ConversationState)
    (input : String) : ConversationState × Msg × Bool :=
  match ext.extract_groupement input with
  | some gid =>
    if gid = 0 then account_fail .groupementAbort .groupementRetry now st
    else
      let st1 := add_data "groupement_id" (.i gid) now st
      let st2 :=
        match gs.find? (fun g => g.id == gid) with
        | some g => add_data "groupement_name" (.s g.name) now st1
        | none => st1
      (next_step .CONFIRM now st2, .prompt "account_creation" "confirm", false)
  | none => account_fail .groupementAbort .groupementRetry now st

/-- Python substring containment pat in s, on character lists. -/
def listContainsSub (pat : List Char) : List Char → Bool
  | [] => pat.isEmpty
  | c :: rest => pat.isPrefixOf (c :: rest) || listContainsSub pat rest

/-- Python substring containment pat in s. -/
def strContains (s pat : String) : Bool :=
  listContainsSub pat.toList s.toList

/-- AccountCreationFlow._process_confirmation: yes completes; no asks what
to change; otherwise substring matching routes back to a specific step; a
final fallback re-prompts.  No branch consumes an attempt. -/
def account_process_confirmation (ext : DataExtractorM) (now : ℕ)
    (st : ConversationState) (input : String) :
    ConversationState × Msg × Bool :=
  match ext.is_confirmation input with
  | some true => (next_step .COMPLETE now st, .empty, true)
  | some false => (st, .whatToChange, false)
  | none =>
    let tl := pyLower input
    if strContains tl "name" then (next_step .ASK_NAME now st, .changeName, false)
    else if strContains tl "age" then (next_step .ASK_AGE now st, .changeAge, false)
    else if strContains tl "sex" || strContains tl "gender" then
      (next_step .ASK_SEX now st, .changeSex, false)
    else if strContains tl "groupement" || strContains tl "group" then
      (next_step .ASK_GROUPEMENT now st,
       .prompt "account_creation" "ask_groupement", false)
    else (st, .confirmAllCorrect, false)

/-- AccountCreationFlow.process. -/
def account_process (ext : DataExtractorM) (gs : List Groupement) (now : ℕ)
    (st : ConversationState) (input : String) :
    ConversationState × Msg × Bool :=
  match st.flow_step with
  | some .ASK_NAME => account_process_name ext now st input
  | some .ASK_AGE => account_process_age ext now st input
  | some .ASK_SEX => account_process_sex ext now st input
  | some .ASK_GROUPEMENT => account_process_groupement ext gs now st input
  | some .CONFIRM => account_process_confirmation ext now st input
  | _ => (st, .empty, false)

/-- Money-movement intents routed by ConversationManager._handle_intent. -/
inductive MoneyIntent
  | WITHDRAWAL | TOPUP | TRANSFER
deriving Repr, DecidableEq

/-- ConversationManager._handle_intent restricted to the three
money-movement intents: Withdrawal and TopUp are refused without a prompt
to create an account unless account_exists is true; Transfer starts its
flow directly. -/
def handle_money_intent (backend : String → Option Account) (now : ℕ)
    (st : ConversationState) : MoneyIntent → ConversationState × Msg
  | .WITHDRAWAL =>
    if ¬ st.account_exists then (st, .needAccountWithdrawal)
    else withdrawal_start backend now st
  | .TOPUP =>
    if ¬ st.account_exists then (st, .needAccountDeposit)
    else topup_start backend now st
  | .TRANSFER => transfer_start backend now st

end Conv

namespace Conv

/-- The dictionary produced by ConversationState.to_dict: exactly the
fourteen keys written by the source, one field per key.  There is no lang
key.  The isoformat strings of created_at and updated_at are modelled by
the tick itself (isoformat and fromisoformat are mutually inverse on
datetimes). -/
structure StateDict where
  conversation_id : String
  user_id : String
  phone_number : String
  flow_type : String
  flow_step : Option String
  collected_data : List (String × PyVal)
  account_id : Option String
  account_balance : Option ℚ
  phone_checked : Bool
  account_exists : Bool
  attempts : ℕ
  max_attempts : ℕ
  created_at : ℕ
  updated_at : ℕ
deriving Repr, DecidableEq

/-- ConversationState.to_dict. -/
def to_dict (st : ConversationState) : StateDict :=
  { conversation_id := st.conversation_id,
    user_id := st.user_id,
    phone_number := st.phone_number,
    flow_type := st.flow_type.value,
    flow_step := st.flow_step.map FlowStep.value,
    collected_data := st.collected_data,
    account_id := st.account_id,
    account_balance := st.account_balance,
    phone_checked := st.phone_checked,
    account_exists := st.account_exists,
    attempts := st.attempts,
    max_attempts := st.max_attempts,
    created_at := st.created_at,
    updated_at := st.updated_at }

/-- ConversationState.from_dict: rebuild the dataclass from the stored
dictionary.  The rebuilt instance carries no lang attribute (lang = none):
from_dict reads no lang key and the dataclass declares no such field. -/
def from_dict (d : StateDict) : ConversationState :=
  { conversation_id := d.conversation_id,
    user_id := d.user_id,
    phone_number := d.phone_number,
    flow_type := FlowType.ofValue d.flow_type,
    flow_step := match d.flow_step with
                 | some s => some (FlowStep.ofValue s)
                 | none => none,
    collected_data := d.collected_data,
    account_id := d.account_id,
    account_balance := d.account_balance,
    phone_checked := d.phone_checked,
    account_exists := d.account_exists,
    attempts := d.attempts,
    max_attempts := d.max_attempts,
    created_at := d.created_at,
    updated_at := d.updated_at,
    lang := none }

/-- InMemoryConversationStore round trip before TTL expiry: save writes
to_dict plus an expiry key, get rebuilds through from_dict. -/
def store_roundtrip (st : ConversationState) : ConversationState :=
  from_dict (to_dict st)

end Conv

namespace NLU

/-- Amount normalization of BankingEntityExtractor._normalize_entities:
remove spaces, remove non-breaking spaces, then turn commas into periods.
All three replacements have single-character patterns, so str.replace is
exactly a character-wise filter or map. -/
def normalizeMontant (s : String) : String :=
  String.mk
    (((s.toList.filter (fun c => c ≠ ' ')).filter (fun c => c ≠ '\u00A0')).map
      (fun c => if c = ',' then '.' else c))

/-- Python float() restricted to unsigned decimal literals
digits [ . digits ], the only shapes the normalized amount strings of the
extractor take: the exact rational value, or none on a ValueError.  Floats
are modelled as exact rationals. -/
def pyFloat (s : String) : Option ℚ :=
  match s.toList.splitOn '.' with
  | [ip] =>
    if ip ≠ [] ∧ ip.all Char.isDigit then
      some (Conv.digitsToNat ip)
    else none
  | [ip, fp] =>
    if (ip ≠ [] ∨ fp ≠ []) ∧ ip.all Char.isDigit ∧ fp.all Char.isDigit then
      some ((Conv.digitsToNat ip : ℚ) +
        (Conv.digitsToNat fp : ℚ) / ((10 : ℚ) ^ fp.length))
    else none
  | _ => none

/-- The parsed amount the EntityExtractor produces for an extracted
montant string: float() of the normalized string. -/
def parsedMontant (s : String) : Option ℚ := pyFloat (normalizeMontant s)

/-- Characters a separated amount string may contain: digits plus the
three separators of the claim. -/
def amountChars : List Char :=
  ['0', '1', '2', '3', '4', '5', '6', '7', '8', '9', ' ', ',', '.']

/-- The canonical digit string of an amount string: its digits in order,
separators removed. -/
def canonicalDigits (s : String) : String :=
  String.mk (s.toList.filter Char.isDigit)

end NLU

namespace Conv

/-- Example conversation state with a cached account id but no positive
account_exists flag (as left by the view-account handler, which caches the
id without calling mark_phone_checked). -/
def cachedIdState : ConversationState :=
  { mkState "conv-1" "user-1" "690000000" 0 with account_id := some "acc-1" }

/-- Example transfer-flow state waiting for an amount, with a cached
balance of 50. -/
def askAmountState : ConversationState :=
  { mkState "conv-1" "user-1" "690000000" 0 with
      flow_type := .TRANSFER, flow_step := some .ASK_AMOUNT,
      account_balance := some 50 }

/-- Example state whose conversation language was detected as French. -/
def frenchState : ConversationState :=
  { mkState "conv-1" "user-1" "690000000" 0 with lang := some "fr" }

end Conv

namespace Conv

/-- State reached after feeding a flow step function a sequence of inputs
(each with its wall-clock tick). -/
def foldSteps
    (f : ℕ → ConversationState → String → ConversationState × Msg × Bool)
    (st : ConversationState) (steps : List (ℕ × String)) :
    ConversationState :=
  steps.foldl (fun s p => (f p.1 s p.2).1) st

end Conv

/-! Theorems.  Helper lemmas come first, then one theorem per claim, with
counterexamples and witnesses where applicable. -/

theorem Fraud.highAmountPoints_mono {a b : ℚ} (h : a ≤ b) :
    Fraud.highAmountPoints a ≤ Fraud.highAmountPoints b := by
  by_cases ha : a > Fraud.HIGH_AMOUNT_THRESHOLD
  · have hb : b > Fraud.HIGH_AMOUNT_THRESHOLD := lt_of_lt_of_le ha h
    simp [Fraud.highAmountPoints, ha, hb]
  · simp only [Fraud.highAmountPoints, if_neg ha]
    exact Nat.zero_le _

theorem Fraud.roundAmountPoints_le (a : ℚ) :
    Fraud.roundAmountPoints a ≤ Fraud.ROUND_AMOUNT_POINTS := by
  unfold Fraud.roundAmountPoints
  split <;> simp

theorem Fraud.assess_risk_score (md5h : String → String)
    (st : Fraud.FraudState) (a : ℚ) (b : String) (hour : ℕ) (now : ℚ) :
    (Fraud.assess_risk md5h st a b hour now).1 =
      min (Fraud.highAmountPoints a + Fraud.check_velocity st now +
        (if (Fraud.is_new_beneficiary md5h st b).1 then
          Fraud.NEW_BENEFICIARY_POINTS else 0) +
        Fraud.check_unusual_time hour + Fraud.roundAmountPoints a) 100 := rfl

theorem Fraud.mem_beneficiaries_after (md5h : String → String)
    (st : Fraud.FraudState) (a : ℚ) (b : String) (hour : ℕ) (now : ℚ) :
    md5h (pyLower b) ∈ (Fraud.assess_risk md5h st a b hour now).2.beneficiaries := by
  simp only [Fraud.assess_risk, Fraud.record_transaction_attempt,
    Fraud.is_new_beneficiary]
  split
  · next hmem => simpa using hmem
  · simp

theorem Fraud.beneficiaries_mono (md5h : String → String)
    (st : Fraud.FraudState) (a : ℚ) (b : String) (hour : ℕ) (now : ℚ)
    {x : String} (hx : x ∈ st.beneficiaries) :
    x ∈ (Fraud.assess_risk md5h st a b hour now).2.beneficiaries := by
  simp only [Fraud.assess_risk, Fraud.record_transaction_attempt,
    Fraud.is_new_beneficiary]
  split
  · simpa using hx
  · simp only [List.mem_cons]
    exact Or.inr hx

theorem Fraud.beneficiaries_foldCalls_mono (md5h : String → String)
    (calls : List Fraud.CallParams) (st : Fraud.FraudState) {x : String}
    (hx : x ∈ st.beneficiaries) :
    x ∈ (Fraud.foldCalls md5h st calls).beneficiaries := by
  induction calls generalizing st with
  | nil => simpa [Fraud.foldCalls] using hx
  | cons p rest ih =>
    simp only [Fraud.foldCalls, List.foldl_cons]
    exact ih _ (Fraud.beneficiaries_mono md5h st p.amount p.beneficiary
      p.hour p.now hx)

theorem Fraud.assess_risk_known_beneficiary (md5h : String → String)
    (st : Fraud.FraudState) (a : ℚ) (b : String) (hour : ℕ) (now : ℚ)
    (hmem : md5h (pyLower b) ∈ st.beneficiaries) :
    (Fraud.assess_risk md5h st a b hour now).1 =
      min (Fraud.highAmountPoints a + Fraud.check_velocity st now +
        Fraud.check_unusual_time hour + Fraud.roundAmountPoints a) 100 ∧
    (Fraud.assess_risk md5h st a b hour now).2.beneficiaries =
      st.beneficiaries := by
  simp [Fraud.assess_risk, Fraud.is_new_beneficiary,
    Fraud.record_transaction_attempt, hmem]

theorem Fraud.assess_risk_velocity (md5h : String → String)
    (st : Fraud.FraudState) (a : ℚ) (b : String) (hour : ℕ) (now : ℚ) :
    (Fraud.assess_risk md5h st a b hour now).2.velocity =
      Fraud.zaddTimestamp st.velocity now := by
  simp only [Fraud.assess_risk, Fraud.record_transaction_attempt,
    Fraud.is_new_beneficiary]
  split <;> rfl

/-- C3, counterexample: with the user, beneficiary (already known), time
of day and velocity history fixed, raising the amount from 500 to 501
lowers the risk score from 10 to 0, because the round-number factor is
lost.  The claimed monotonicity in the amount is therefore false. -/
theorem C3_counterexample :
    (500 : ℚ) ≤ 501 ∧
    (Fraud.assess_risk Fraud.md5Model ⟨[], ["md5-paul"]⟩ 500 "paul" 12 0).1 = 10 ∧
    (Fraud.assess_risk Fraud.md5Model ⟨[], ["md5-paul"]⟩ 501 "paul" 12 0).1 = 0 := by
  refine ⟨by norm_num, ?_, ?_⟩ <;>
    norm_num [Fraud.assess_risk, Fraud.highAmountPoints, Fraud.HIGH_AMOUNT_THRESHOLD,
      Fraud.check_velocity, Fraud.zcount, Fraud.is_new_beneficiary, Fraud.md5Model,
      Fraud.check_unusual_time, Fraud.roundAmountPoints, Fraud.isMultipleOf100,
      Fraud.ROUND_AMOUNT_MIN, Fraud.ROUND_AMOUNT_POINTS, Fraud.NEW_BENEFICIARY_POINTS,
      Fraud.VELOCITY_LIMIT, Fraud.record_transaction_attempt, Fraud.zaddTimestamp] <;>
    decide

/-- C3, amended: the assess_risk score is always at most 100, and holding
the user, beneficiary, time of day and velocity history fixed it is
monotonically non-decreasing in the amount up to the 10 points of the
round-number factor; exact monotonicity fails (see the counterexample). -/
theorem C3_amended :
    (∀ (md5h : String → String) (st : Fraud.FraudState) (a : ℚ) (b : String)
      (hour : ℕ) (now : ℚ), (Fraud.assess_risk md5h st a b hour now).1 ≤ 100) ∧
    (∀ (md5h : String → String) (st : Fraud.FraudState) (b : String)
      (hour : ℕ) (now : ℚ) (a₁ a₂ : ℚ), a₁ ≤ a₂ →
      (Fraud.assess_risk md5h st a₁ b hour now).1 ≤
        (Fraud.assess_risk md5h st a₂ b hour now).1 +
          Fraud.ROUND_AMOUNT_POINTS) := by
  constructor
  · intro md5h st a b hour now
    rw [Fraud.assess_risk_score]
    exact min_le_right _ _
  · intro md5h st b hour now a₁ a₂ h
    rw [Fraud.assess_risk_score, Fraud.assess_risk_score]
    have hh := Fraud.highAmountPoints_mono h
    have hr := Fraud.roundAmountPoints_le a₁
    simp only [Fraud.ROUND_AMOUNT_POINTS] at hr ⊢
    rw [Nat.min_def, Nat.min_def]
    split_ifs <;> omega

/-- C3, witness for the amended theorem at concrete amounts 3 and 5. -/
theorem C3_amended_witness :
    (Fraud.assess_risk Fraud.md5Model ⟨[], []⟩ 3 "p" 12 0).1 ≤
      (Fraud.assess_risk Fraud.md5Model ⟨[], []⟩ 5 "p" 12 0).1 +
        Fraud.ROUND_AMOUNT_POINTS :=
  C3_amended.2 Fraud.md5Model ⟨[], []⟩ "p" 12 0 3 5 (by norm_num)

/-- C5, counterexample: two consecutive assess_risk calls that read the
same utcnow timestamp zadd the same member str(timestamp), so the velocity
window holds one entry, not two: the claim that n assessments always yield
a velocity count of n is false. -/
theorem C5_counterexample :
    ((Fraud.assess_risk Fraud.md5Model
        (Fraud.assess_risk Fraud.md5Model ⟨[], []⟩ 100 "p" 12 1000).2
        100 "p" 12 1000).2).velocity = [1000] ∧
    Fraud.zcount ((Fraud.assess_risk Fraud.md5Model
        (Fraud.assess_risk Fraud.md5Model ⟨[], []⟩ 100 "p" 12 1000).2
        100 "p" 12 1000).2).velocity (1000 - 600) 1000 = 1 := by
  constructor <;>
    norm_num [Fraud.assess_risk, Fraud.record_transaction_attempt,
      Fraud.zaddTimestamp, Fraud.is_new_beneficiary, Fraud.zcount]

/-- C5, amended: every assess_risk call records the current timestamp into
the velocity sorted set (a zadd, regardless of score and of any downstream
rejection), and n consecutive assessments at pairwise distinct fresh
timestamps yield a velocity member count of exactly n more than before;
calls sharing a timestamp collapse to one member (see the
counterexample). -/
theorem C5_amended :
    (∀ (md5h : String → String) (st : Fraud.FraudState) (a : ℚ) (b : String)
      (hour : ℕ) (now : ℚ),
      (Fraud.assess_risk md5h st a b hour now).2.velocity =
        Fraud.zaddTimestamp st.velocity now) ∧
    (∀ (md5h : String → String) (a : ℚ) (b : String) (hour : ℕ)
      (ts : List ℚ) (st : Fraud.FraudState), ts.Nodup →
      (∀ t ∈ ts, t ∉ st.velocity) →
      (Fraud.foldCalls md5h st
        (ts.map (fun t => ⟨a, b, hour, t⟩))).velocity.length =
        st.velocity.length + ts.length) := by
  constructor
  · exact Fraud.assess_risk_velocity
  · intro md5h a b hour ts
    induction ts with
    | nil => intro st _ _; simp [Fraud.foldCalls]
    | cons t rest ih =>
      intro st hnd hfresh
      simp only [List.map_cons, Fraud.foldCalls, List.foldl_cons]
      have hvel : (Fraud.assess_risk md5h st a b hour t).2.velocity =
          t :: st.velocity := by
        rw [Fraud.assess_risk_velocity]
        simp [Fraud.zaddTimestamp, hfresh t (List.mem_cons_self t rest)]
      have hrest : ∀ u ∈ rest, u ∉ (Fraud.assess_risk md5h st a b hour t).2.velocity := by
        intro u hu
        rw [hvel]
        simp only [List.mem_cons, not_or]
        refine ⟨?_, hfresh u (List.mem_cons_of_mem t hu)⟩
        intro hut
        exact (List.nodup_cons.mp hnd).1 (hut ▸ hu)
      have := ih (Fraud.assess_risk md5h st a b hour t).2
        (List.nodup_cons.mp hnd).2 hrest
      rw [Fraud.foldCalls] at this
      rw [this, hvel]
      simp only [List.length_cons]
      omega

/-- C5, witness for the amended theorem: two assessments at distinct
timestamps 1000 and 1001 from an empty state yield two velocity members. -/
theorem C5_amended_witness :
    (Fraud.foldCalls Fraud.md5Model ⟨[], []⟩
      (([1000, 1001] : List ℚ).map
        (fun t => ⟨100, "p", 12, t⟩))).velocity.length = 0 + 2 :=
  C5_amended.2 Fraud.md5Model 100 "p" 12 [1000, 1001] ⟨[], []⟩
    (by decide) (by intro t _ h; simp at h)

/-- C10: the first assess_risk call for a pair of user state and
beneficiary inserts the hashed beneficiary into the known-beneficiary
set; after it, and after any further sequence of assessments, assessing
the same beneficiary again scores no novelty points (the score is exactly
the capped sum of the amount, velocity, time and round factors) and
leaves the beneficiary set unchanged, so at most one assessment per pair
ever receives the 20 novelty points. -/
theorem C10_novelty_consumed :
    ∀ (md5h : String → String) (st : Fraud.FraudState) (b : String)
      (p : Fraud.CallParams) (rest : List Fraud.CallParams)
      (q : Fraud.CallParams),
      md5h (pyLower b) ∈
        (Fraud.foldCalls md5h
          (Fraud.assess_risk md5h st p.amount b p.hour p.now).2
          rest).beneficiaries ∧
      (Fraud.assess_risk
          (md5h) (Fraud.foldCalls md5h
            (Fraud.assess_risk md5h st p.amount b p.hour p.now).2 rest)
          q.amount b q.hour q.now).1 =
        min (Fraud.highAmountPoints q.amount +
          Fraud.check_velocity (Fraud.foldCalls md5h
            (Fraud.assess_risk md5h st p.amount b p.hour p.now).2 rest)
            q.now +
          Fraud.check_unusual_time q.hour +
          Fraud.roundAmountPoints q.amount) 100 ∧
      (Fraud.assess_risk
          (md5h) (Fraud.foldCalls md5h
            (Fraud.assess_risk md5h st p.amount b p.hour p.now).2 rest)
          q.amount b q.hour q.now).2.beneficiaries =
        (Fraud.foldCalls md5h
          (Fraud.assess_risk md5h st p.amount b p.hour p.now).2
          rest).beneficiaries := by
  intro md5h st b p rest q
  have hmem := Fraud.beneficiaries_foldCalls_mono md5h rest
    (Fraud.assess_risk md5h st p.amount b p.hour p.now).2
    (Fraud.mem_beneficiaries_after md5h st p.amount b p.hour p.now)
  have hknown := Fraud.assess_risk_known_beneficiary md5h
    (Fraud.foldCalls md5h
      (Fraud.assess_risk md5h st p.amount b p.hour p.now).2 rest)
    q.amount b q.hour q.now hmem
  exact ⟨hmem, hknown.1, hknown.2⟩

/-- C1, counterexample: a transfer of 100 EUR to a beneficiary that the
banking api knows but the user has never used before (the fraud
detector's known-beneficiary set is empty) passes all checks and is
executed immediately with requires_otp false: novelty alone contributes
only 20 risk points and does not force an OTP, contradicting the claim
that every transfer to a never-used beneficiary requires one. -/
theorem C1_counterexample :
    (Orchestrator.handle_virement ⟨1000, true, some "TX1"⟩ Fraud.md5Model
        ⟨[], []⟩ 12 0 (some 100) "paul").1 =
      Orchestrator.VirementOutcome.transferDone "TX1" ∧
    (Orchestrator.handle_virement ⟨1000, true, some "TX1"⟩ Fraud.md5Model
        ⟨[], []⟩ 12 0 (some 100) "paul").1.requiresOtp = false ∧
    Fraud.md5Model (pyLower "paul") ∉
      Fraud.FraudState.beneficiaries ⟨[], []⟩ ∧
    (Fraud.assess_risk Fraud.md5Model ⟨[], []⟩ 100 "paul" 12 0).1 = 20 := by
  refine ⟨?_, ?_, ?_, ?_⟩ <;>
    norm_num [Orchestrator.handle_virement, Orchestrator.validate_amount,
      Orchestrator.check_daily_limit, Orchestrator.MIN_TRANSFER_AMOUNT,
      Orchestrator.MAX_TRANSFER_AMOUNT, Orchestrator.MAX_DAILY_TRANSFER,
      Orchestrator.OTP_AMOUNT_THRESHOLD, Orchestrator.OTP_RISK_THRESHOLD,
      Orchestrator.VirementOutcome.requiresOtp,
      Fraud.assess_risk, Fraud.highAmountPoints, Fraud.HIGH_AMOUNT_THRESHOLD,
      Fraud.check_velocity, Fraud.zcount, Fraud.is_new_beneficiary,
      Fraud.check_unusual_time, Fraud.roundAmountPoints, Fraud.isMultipleOf100,
      Fraud.ROUND_AMOUNT_MIN, Fraud.ROUND_AMOUNT_POINTS,
      Fraud.NEW_BENEFICIARY_POINTS, Fraud.VELOCITY_LIMIT, Fraud.RISK_HIGH,
      Fraud.record_transaction_attempt, Fraud.zaddTimestamp]

/-- C1, amended: once the amount is valid, the daily limit and live
balance checks pass and the banking api knows the beneficiary,
requires_otp holds if and only if the amount exceeds the OTP amount
threshold or the fraud score exceeds the OTP risk threshold.  The third
disjunct of the source (beneficiary unknown to the banking api) is always
false at the decision point, because unknown beneficiaries already
returned pending; a beneficiary that is merely new to the fraud detector
influences the decision only through its 20 risk points. -/
theorem C1_requires_otp_iff :
    ∀ (env : Orchestrator.VirementEnv) (md5h : String → String)
      (fs : Fraud.FraudState) (hour : ℕ) (now : ℚ) (m : ℚ) (dest : String),
      Orchestrator.validate_amount (some m) = true →
      Orchestrator.check_daily_limit 0 m = true →
      ¬ m > env.balance →
      env.beneficiaryExists = true →
      ((Orchestrator.handle_virement env md5h fs hour now (some m) dest).1 =
          Orchestrator.VirementOutcome.otpRequired ↔
        (m > Orchestrator.OTP_AMOUNT_THRESHOLD ∨
          (Fraud.assess_risk md5h fs m dest hour now).1 >
            Orchestrator.OTP_RISK_THRESHOLD)) := by
  intro env md5h fs hour now m dest hva hdl hbal hben
  unfold Orchestrator.handle_virement
  simp only [hva, hdl, hben, not_true, Bool.not_true, not_false_iff,
    ite_true, ite_false, if_true, if_false]
  rw [if_neg hbal]
  by_cases hcond : m > Orchestrator.OTP_AMOUNT_THRESHOLD ∨
      (Fraud.assess_risk md5h fs m dest hour now).1 >
        Orchestrator.OTP_RISK_THRESHOLD
  · rw [if_pos (hcond.elim Or.inl (fun h => Or.inr (Or.inl h)))]
    simpa using hcond
  · rw [if_neg (fun hor => hor.elim (fun h => hcond (Or.inl h))
      (fun hor2 => hor2.elim (fun h => hcond (Or.inr h)) (fun h => h.elim)))]
    rcases henv : env.executeTransfer with _ | tx <;> simp [henv, hcond]

/-- C1, witness for the amended theorem at the concrete counterexample
environment. -/
theorem C1_requires_otp_iff_witness :
    (Orchestrator.handle_virement ⟨1000, true, some "TX1"⟩ Fraud.md5Model
        ⟨[], []⟩ 12 0 (some 100) "paul").1 =
      Orchestrator.VirementOutcome.otpRequired ↔
    ((100 : ℚ) > Orchestrator.OTP_AMOUNT_THRESHOLD ∨
      (Fraud.assess_risk Fraud.md5Model ⟨[], []⟩ 100 "paul" 12 0).1 >
        Orchestrator.OTP_RISK_THRESHOLD) :=
  C1_requires_otp_iff ⟨1000, true, some "TX1"⟩ Fraud.md5Model ⟨[], []⟩ 12 0
    100 "paul"
    (by norm_num [Orchestrator.validate_amount,
      Orchestrator.MIN_TRANSFER_AMOUNT, Orchestrator.MAX_TRANSFER_AMOUNT])
    (by norm_num [Orchestrator.check_daily_limit,
      Orchestrator.MAX_DAILY_TRANSFER])
    (by norm_num) rfl

/-- C2: once the attempt counter of an OTP record has reached
max_attempts (after three failed verifications), every subsequent verify
call returns invalid and leaves no record behind, whatever code it
presents — in particular the correct original code is rejected after
three wrong attempts; and every successful verification deletes the
record, so verifying the same code again fails with no record to match:
no code is ever accepted twice. -/
theorem C2_otp_single_use :
    (∀ (h : String → String) (r : OTP.OTPRecord) (code : String),
      r.attempts ≥ OTP.MAX_ATTEMPTS →
      OTP.verify_otp h (some r) code =
        (none, .invalid .maxAttemptsReached)) ∧
    (∀ (h : String → String) (code action : String) (created : ℕ)
      (meta : List (String × String)) (w₁ w₂ w₃ : String),
      h w₁ ≠ h code → h w₂ ≠ h code → h w₃ ≠ h code →
      OTP.verify_otp h
        (OTP.verify_otp h
          (OTP.verify_otp h
            (OTP.verify_otp h
              (some (OTP.generate_otp h code action created meta)) w₁).1
            w₂).1
          w₃).1 code =
        (none, .invalid .maxAttemptsReached)) ∧
    (∀ (h : String → String) (store : Option OTP.OTPRecord) (code : String),
      (OTP.verify_otp h store code).2.isValid = true →
      (OTP.verify_otp h store code).1 = none ∧
      OTP.verify_otp h (OTP.verify_otp h store code).1 code =
        (none, .invalid .expiredOrInvalid)) := by
  refine ⟨?_, ?_, ?_⟩
  · intro h r code hr
    simp [OTP.verify_otp, hr]
  · intro h code action created meta w₁ w₂ w₃ hw₁ hw₂ hw₃
    simp [OTP.verify_otp, OTP.generate_otp, OTP.MAX_ATTEMPTS, hw₁, hw₂, hw₃]
  · intro h store code hv
    rcases store with _ | r
    · simp [OTP.verify_otp, OTP.VerifyResult.isValid] at hv
    · by_cases hmax : r.attempts ≥ OTP.MAX_ATTEMPTS
      · simp [OTP.verify_otp, hmax, OTP.VerifyResult.isValid] at hv
      · by_cases hhash : h code ≠ r.otpHash
        · simp [OTP.verify_otp, hmax, hhash, OTP.VerifyResult.isValid] at hv
        · simp [OTP.verify_otp, hmax, hhash]

/-- C2, witness: with the identity stand-in hash, code 111111 and wrong
attempts 000000, 000001, 000002, the fourth verify with the correct code
is rejected and the record is gone. -/
theorem C2_otp_single_use_witness :
    OTP.verify_otp (fun s => s)
      (OTP.verify_otp (fun s => s)
        (OTP.verify_otp (fun s => s)
          (OTP.verify_otp (fun s => s)
            (some (OTP.generate_otp (fun s => s) "111111" "virement" 0 []))
            "000000").1
          "000001").1
        "000002").1 "111111" =
      (none, .invalid .maxAttemptsReached) :=
  C2_otp_single_use.2.1 (fun s => s) "111111" "virement" 0 []
    "000000" "000001" "000002" (by decide) (by decide) (by decide)

/-- C4, counterexample: in a conversation whose state does not record
account_exists as true but holds a cached account id (as the view-account
handler leaves it), a message classified as Transfer starts the transfer
flow anyway: TransferFlow.start consults account_id and a backend lookup,
never the account_exists flag, contradicting the claim for the Transfer
intent. -/
theorem C4_counterexample :
    Conv.cachedIdState.account_exists = false ∧
    Conv.cachedIdState.flow_type = Conv.FlowType.NONE ∧
    (Conv.handle_money_intent (fun _ => none) 1 Conv.cachedIdState
        .TRANSFER).1.flow_type = Conv.FlowType.TRANSFER ∧
    (Conv.handle_money_intent (fun _ => none) 1 Conv.cachedIdState
        .TRANSFER).2 = Conv.Msg.prompt "transfer" "start" := by
  decide

/-- C4, amended: without account_exists recorded true, Withdrawal and
TopUp messages never start their flow — the manager replies with an
account-creation prompt and flow_type stays None; the Transfer intent
instead guards on the cached account id and a live backend lookup: it
refuses (flow_type stays None, with a create-account prompt) only when
both are absent, and starts the flow whenever an account id is cached,
account_exists notwithstanding. -/
theorem C4_account_guard :
    ∀ (backend : String → Option Conv.Account) (now : ℕ)
      (st : Conv.ConversationState),
      st.account_exists = false → st.flow_type = Conv.FlowType.NONE →
      ((Conv.handle_money_intent backend now st .WITHDRAWAL).1.flow_type =
          Conv.FlowType.NONE ∧
        (Conv.handle_money_intent backend now st .WITHDRAWAL).2 =
          Conv.Msg.needAccountWithdrawal) ∧
      ((Conv.handle_money_intent backend now st .TOPUP).1.flow_type =
          Conv.FlowType.NONE ∧
        (Conv.handle_money_intent backend now st .TOPUP).2 =
          Conv.Msg.needAccountDeposit) ∧
      (st.account_id = none → backend st.phone_number = none →
        (Conv.handle_money_intent backend now st .TRANSFER).1.flow_type =
          Conv.FlowType.NONE ∧
        (Conv.handle_money_intent backend now st .TRANSFER).2 =
          Conv.Msg.noAccountYet) ∧
      (∀ accId : String, st.account_id = some accId →
        (Conv.handle_money_intent backend now st .TRANSFER).1.flow_type =
          Conv.FlowType.TRANSFER) := by
  intro backend now st hex hflow
  refine ⟨?_, ?_, ?_, ?_⟩
  · simp [Conv.handle_money_intent, hex, hflow]
  · simp [Conv.handle_money_intent, hex, hflow]
  · intro hid hback
    simp [Conv.handle_money_intent, Conv.transfer_start, hid, hback, hflow]
  · intro accId hid
    simp [Conv.handle_money_intent, Conv.transfer_start, hid,
      Conv.start_flow]

/-- C4, witness for the amended theorem at the concrete cached-id state. -/
theorem C4_account_guard_witness :
    (Conv.handle_money_intent (fun _ => none) 1 Conv.cachedIdState
        .WITHDRAWAL).1.flow_type = Conv.FlowType.NONE ∧
    (Conv.handle_money_intent (fun _ => none) 1 Conv.cachedIdState
        .WITHDRAWAL).2 = Conv.Msg.needAccountWithdrawal :=
  (C4_account_guard (fun _ => none) 1 Conv.cachedIdState rfl rfl).1

/-- C7, counterexample: in the transfer flow at the ask-amount step with a
cached balance of 50 and zero attempts used, the understood inputs 100
(over balance) and 0 (non-positive) each produce their specific
corrective re-prompt but leave the state — attempts included — completely
unchanged, contradicting the claim that validation failures are counted
against the attempt budget. -/
theorem C7_counterexample :
    Conv.askAmountState.attempts = 0 ∧
    (Conv.transfer_process 1 Conv.askAmountState "100").1 =
      Conv.askAmountState ∧
    (Conv.transfer_process 1 Conv.askAmountState "100").2 =
      (Conv.Msg.insufficientBalanceTransfer, false) ∧
    (Conv.transfer_process 1 Conv.askAmountState "0").1 =
      Conv.askAmountState ∧
    (Conv.transfer_process 1 Conv.askAmountState "0").2 =
      (Conv.Msg.amountNotPositive, false) := by
  refine ⟨rfl, ?_, ?_, ?_, ?_⟩ <;> decide

/-- C7, amended: an input that is understood but fails validation
produces its specific corrective re-prompt WITHOUT touching the attempts
counter — the state is returned unchanged (transfer amount step:
non-positive or over-balance; withdrawal amount step: below minimum,
above maximum or over balance; account-creation age step: under 18 or
over 120) — while only inputs whose extraction fails consume an attempt,
incrementing the counter and aborting at max_attempts. -/
theorem C7_validation_no_attempt :
    (∀ (now : ℕ) (st : Conv.ConversationState) (input : String) (a : ℤ),
      st.flow_step = some Conv.FlowStep.ASK_AMOUNT →
      Conv.transfer_extract_amount input = some a →
      (a ≤ 0 ∨ (∃ b, st.account_balance = some b ∧ (a : ℚ) > b)) →
      (Conv.transfer_process now st input).1 = st ∧
      (Conv.transfer_process now st input).2.2 = false) ∧
    (∀ (ext : Conv.DataExtractorM) (now : ℕ) (st : Conv.ConversationState)
      (input : String) (a : ℚ),
      st.flow_step = some Conv.FlowStep.ASK_AMOUNT →
      ext.extract_amount input = some a → a ≠ 0 →
      (a < Conv.WITHDRAWAL_MIN ∨ a > Conv.WITHDRAWAL_MAX ∨
        (∃ b, st.account_balance = some b ∧ a > b)) →
      (Conv.withdrawal_process ext now st input).1 = st) ∧
    (∀ (ext : Conv.DataExtractorM) (gs : List Conv.Groupement) (now : ℕ)
      (st : Conv.ConversationState) (input : String) (n : ℕ),
      st.flow_step = some Conv.FlowStep.ASK_AGE →
      ext.extract_age input = some n → n ≠ 0 → (n < 18 ∨ n > 120) →
      (Conv.account_process ext gs now st input).1 = st) ∧
    (∀ (now : ℕ) (st : Conv.ConversationState) (input : String),
      st.flow_step = some Conv.FlowStep.ASK_AMOUNT →
      Conv.transfer_extract_amount input = none →
      (Conv.transfer_process now st input).1.attempts =
        (if st.attempts + 1 ≥ st.max_attempts then 0 else st.attempts + 1)) := by
  refine ⟨?_, ?_, ?_, ?_⟩
  · intro now st input a hstep hamt hbad
    by_cases ha : a ≤ 0
    · simp [Conv.transfer_process, hstep, Conv.transfer_process_amount,
        hamt, ha]
    · rcases hbad with ha' | ⟨b, hb, hgt⟩
      · exact absurd ha' ha
      · simp [Conv.transfer_process, hstep, Conv.transfer_process_amount,
          hamt, ha, hb, hgt]
  · intro ext now st input a hstep hamt ha hbad
    by_cases hmin : a < Conv.WITHDRAWAL_MIN
    · simp [Conv.withdrawal_process, hstep, Conv.withdrawal_process_amount,
        hamt, ha, hmin]
    · by_cases hmax : a > Conv.WITHDRAWAL_MAX
      · simp [Conv.withdrawal_process, hstep,
          Conv.withdrawal_process_amount, hamt, ha, hmin, hmax]
      · rcases hbad with h | h | ⟨b, hb, hgt⟩
        · exact absurd h hmin
        · exact absurd h hmax
        · simp [Conv.withdrawal_process, hstep,
            Conv.withdrawal_process_amount, hamt, ha, hmin, hmax, hb, hgt]
  · intro ext gs now st input n hstep hage hn hbad
    by_cases hyoung : n < 18
    · simp [Conv.account_process, hstep, Conv.account_process_age, hage,
        hn, hyoung]
    · rcases hbad with h | hold
      · exact absurd h hyoung
      · simp [Conv.account_process, hstep, Conv.account_process_age, hage,
          hn, hyoung, hold]
  · intro now st input hstep hnone
    simp only [Conv.transfer_process, hstep, Conv.transfer_process_amount,
      hnone, Conv.increment_attempts, Conv.reset_flow]
    by_cases h : st.attempts + 1 ≥ st.max_attempts
    · simp [h]
    · simp [h]

/-- C7, witness for the amended theorem: over-balance input 100 with
cached balance 50 leaves the ask-amount state untouched. -/
theorem C7_validation_no_attempt_witness :
    (Conv.transfer_process 1 Conv.askAmountState "100").1 =
      Conv.askAmountState ∧
    (Conv.transfer_process 1 Conv.askAmountState "100").2.2 = false :=
  C7_validation_no_attempt.1 1 Conv.askAmountState "100" 100 rfl
    (by decide) (Or.inr ⟨50, rfl, by norm_num⟩)

theorem Conv.transfer_process_attempts_bound (now : ℕ)
    (st : Conv.ConversationState) (input : String)
    (hmax : 0 < st.max_attempts) (hatt : st.attempts < st.max_attempts) :
    (Conv.transfer_process now st input).1.attempts <
      (Conv.transfer_process now st input).1.max_attempts ∧
    (Conv.transfer_process now st input).1.max_attempts = st.max_attempts := by
  unfold Conv.transfer_process Conv.transfer_process_receiver
    Conv.transfer_process_amount Conv.transfer_accept_amount
    Conv.transfer_process_pin Conv.transfer_process_confirmation
    Conv.increment_attempts Conv.reset_flow Conv.next_step Conv.add_data
  repeat' split
  all_goals try simp_all
  all_goals repeat' split
  all_goals try simp_all

theorem Conv.withdrawal_process_attempts_bound (ext : Conv.DataExtractorM)
    (now : ℕ) (st : Conv.ConversationState) (input : String)
    (hmax : 0 < st.max_attempts) (hatt : st.attempts < st.max_attempts) :
    (Conv.withdrawal_process ext now st input).1.attempts <
      (Conv.withdrawal_process ext now st input).1.max_attempts ∧
    (Conv.withdrawal_process ext now st input).1.max_attempts =
      st.max_attempts := by
  unfold Conv.withdrawal_process Conv.withdrawal_process_amount
    Conv.withdrawal_process_confirmation Conv.amount_fail
    Conv.increment_attempts Conv.reset_flow Conv.next_step Conv.add_data
  repeat' split
  all_goals try simp_all
  all_goals repeat' split
  all_goals try simp_all

theorem Conv.topup_process_attempts_bound (ext : Conv.DataExtractorM)
    (now : ℕ) (st : Conv.ConversationState) (input : String)
    (hmax : 0 < st.max_attempts) (hatt : st.attempts < st.max_attempts) :
    (Conv.topup_process ext now st input).1.attempts <
      (Conv.topup_process ext now st input).1.max_attempts ∧
    (Conv.topup_process ext now st input).1.max_attempts =
      st.max_attempts := by
  unfold Conv.topup_process Conv.topup_process_amount
    Conv.topup_process_confirmation Conv.amount_fail
    Conv.increment_attempts Conv.reset_flow Conv.next_step Conv.add_data
  repeat' split
  all_goals try simp_all
  all_goals repeat' split
  all_goals try simp_all

theorem Conv.account_process_attempts_bound (ext : Conv.DataExtractorM)
    (gs : List Conv.Groupement) (now : ℕ) (st : Conv.ConversationState)
    (input : String)
    (hmax : 0 < st.max_attempts) (hatt : st.attempts < st.max_attempts) :
    (Conv.account_process ext gs now st input).1.attempts <
      (Conv.account_process ext gs now st input).1.max_attempts ∧
    (Conv.account_process ext gs now st input).1.max_attempts =
      st.max_attempts := by
  unfold Conv.account_process Conv.account_process_name
    Conv.account_process_age Conv.account_process_sex
    Conv.account_process_groupement Conv.account_process_confirmation
    Conv.account_fail
    Conv.increment_attempts Conv.reset_flow Conv.next_step Conv.add_data
  repeat' split
  all_goals try simp_all
  all_goals repeat' split
  all_goals try simp_all

theorem Conv.transfer_process_reset_clears (now : ℕ)
    (st : Conv.ConversationState) (input : String)
    (hft : st.flow_type = Conv.FlowType.TRANSFER) :
    (Conv.transfer_process now st input).1.flow_type = Conv.FlowType.NONE →
    (Conv.transfer_process now st input).1.collected_data = [] ∧
    (Conv.transfer_process now st input).1.attempts = 0 ∧
    (Conv.transfer_process now st input).1.flow_step = none := by
  unfold Conv.transfer_process Conv.transfer_process_receiver
    Conv.transfer_process_amount Conv.transfer_accept_amount
    Conv.transfer_process_pin Conv.transfer_process_confirmation
    Conv.increment_attempts Conv.reset_flow Conv.next_step Conv.add_data
  repeat' split
  all_goals try simp_all
  all_goals repeat' split
  all_goals try simp_all

theorem Conv.withdrawal_process_reset_clears (ext : Conv.DataExtractorM)
    (now : ℕ) (st : Conv.ConversationState) (input : String)
    (hft : st.flow_type = Conv.FlowType.WITHDRAWAL) :
    (Conv.withdrawal_process ext now st input).1.flow_type =
      Conv.FlowType.NONE →
    (Conv.withdrawal_process ext now st input).1.collected_data = [] ∧
    (Conv.withdrawal_process ext now st input).1.attempts = 0 ∧
    (Conv.withdrawal_process ext now st input).1.flow_step = none := by
  unfold Conv.withdrawal_process Conv.withdrawal_process_amount
    Conv.withdrawal_process_confirmation Conv.amount_fail
    Conv.increment_attempts Conv.reset_flow Conv.next_step Conv.add_data
  repeat' split
  all_goals try simp_all
  all_goals repeat' split
  all_goals try simp_all

theorem Conv.topup_process_reset_clears (ext : Conv.DataExtractorM)
    (now : ℕ) (st : Conv.ConversationState) (input : String)
    (hft : st.flow_type = Conv.FlowType.TOPUP) :
    (Conv.topup_process ext now st input).1.flow_type =
      Conv.FlowType.NONE →
    (Conv.topup_process ext now st input).1.collected_data = [] ∧
    (Conv.topup_process ext now st input).1.attempts = 0 ∧
    (Conv.topup_process ext now st input).1.flow_step = none := by
  unfold Conv.topup_process Conv.topup_process_amount
    Conv.topup_process_confirmation Conv.amount_fail
    Conv.increment_attempts Conv.reset_flow Conv.next_step Conv.add_data
  repeat' split
  all_goals try simp_all
  all_goals repeat' split
  all_goals try simp_all

theorem Conv.account_process_reset_clears (ext : Conv.DataExtractorM)
    (gs : List Conv.Groupement) (now : ℕ) (st : Conv.ConversationState)
    (input : String)
    (hft : st.flow_type = Conv.FlowType.ACCOUNT_CREATION) :
    (Conv.account_process ext gs now st input).1.flow_type =
      Conv.FlowType.NONE →
    (Conv.account_process ext gs now st input).1.collected_data = [] ∧
    (Conv.account_process ext gs now st input).1.attempts = 0 ∧
    (Conv.account_process ext gs now st input).1.flow_step = none := by
  unfold Conv.account_process Conv.account_process_name
    Conv.account_process_age Conv.account_process_sex
    Conv.account_process_groupement Conv.account_process_confirmation
    Conv.account_fail
    Conv.increment_attempts Conv.reset_flow Conv.next_step Conv.add_data
  repeat' split
  all_goals try simp_all
  all_goals repeat' split
  all_goals try simp_all

theorem Conv.transfer_process_abort_on_max (now : ℕ)
    (st : Conv.ConversationState) (input : String)
    (hmax : st.attempts + 1 ≥ st.max_attempts)
    (htrig :
      (st.flow_step = some Conv.FlowStep.ASK_RECEIVER ∧
        Conv.transfer_extract_phone input = none) ∨
      (st.flow_step = some Conv.FlowStep.ASK_AMOUNT ∧
        Conv.transfer_extract_amount input = none) ∨
      (st.flow_step = some Conv.FlowStep.ASK_PIN ∧
        Conv.transfer_extract_pin input = none)) :
    (Conv.transfer_process now st input).1.flow_type = Conv.FlowType.NONE ∧
    (Conv.transfer_process now st input).1.flow_step = none ∧
    (Conv.transfer_process now st input).1.collected_data = [] ∧
    (Conv.transfer_process now st input).1.attempts = 0 ∧
    (Conv.transfer_process now st input).2.2 = true ∧
    ((Conv.transfer_process now st input).2.1 = Conv.Msg.receiverAbort ∨
      (Conv.transfer_process now st input).2.1 = Conv.Msg.amountAbort ∨
      (Conv.transfer_process now st input).2.1 = Conv.Msg.pinAbort) := by
  rcases htrig with ⟨hs, he⟩ | ⟨hs, he⟩ | ⟨hs, he⟩ <;>
    simp [Conv.transfer_process, hs, Conv.transfer_process_receiver,
      Conv.transfer_process_amount, Conv.transfer_process_pin, he,
      Conv.increment_attempts, Conv.reset_flow, hmax]

theorem Conv.withdrawal_process_abort_on_max (ext : Conv.DataExtractorM)
    (now : ℕ) (st : Conv.ConversationState) (input : String)
    (hmax : st.attempts + 1 ≥ st.max_attempts)
    (hstep : st.flow_step = some Conv.FlowStep.ASK_AMOUNT)
    (he : ext.extract_amount input = none ∨
      ext.extract_amount input = some 0) :
    (Conv.withdrawal_process ext now st input).1.flow_type =
      Conv.FlowType.NONE ∧
    (Conv.withdrawal_process ext now st input).1.flow_step = none ∧
    (Conv.withdrawal_process ext now st input).1.collected_data = [] ∧
    (Conv.withdrawal_process ext now st input).1.attempts = 0 ∧
    (Conv.withdrawal_process ext now st input).2.2 = true ∧
    (Conv.withdrawal_process ext now st input).2.1 = Conv.Msg.amountAbort := by
  rcases he with he | he <;>
    simp [Conv.withdrawal_process, hstep, Conv.withdrawal_process_amount,
      he, Conv.amount_fail, Conv.increment_attempts, Conv.reset_flow, hmax]

theorem Conv.topup_process_abort_on_max (ext : Conv.DataExtractorM)
    (now : ℕ) (st : Conv.ConversationState) (input : String)
    (hmax : st.attempts + 1 ≥ st.max_attempts)
    (hstep : st.flow_step = some Conv.FlowStep.ASK_AMOUNT)
    (he : ext.extract_amount input = none ∨
      ext.extract_amount input = some 0) :
    (Conv.topup_process ext now st input).1.flow_type =
      Conv.FlowType.NONE ∧
    (Conv.topup_process ext now st input).1.flow_step = none ∧
    (Conv.topup_process ext now st input).1.collected_data = [] ∧
    (Conv.topup_process ext now st input).1.attempts = 0 ∧
    (Conv.topup_process ext now st input).2.2 = true ∧
    (Conv.topup_process ext now st input).2.1 = Conv.Msg.amountAbort := by
  rcases he with he | he <;>
    simp [Conv.topup_process, hstep, Conv.topup_process_amount, he,
      Conv.amount_fail, Conv.increment_attempts, Conv.reset_flow, hmax]

theorem Conv.account_process_abort_on_max (ext : Conv.DataExtractorM)
    (gs : List Conv.Groupement) (now : ℕ) (st : Conv.ConversationState)
    (input : String)
    (hmax : st.attempts + 1 ≥ st.max_attempts)
    (htrig :
      (st.flow_step = some Conv.FlowStep.ASK_NAME ∧
        (ext.extract_name input = none ∨ ext.extract_name input = some "")) ∨
      (st.flow_step = some Conv.FlowStep.ASK_AGE ∧
        (ext.extract_age input = none ∨ ext.extract_age input = some 0)) ∨
      (st.flow_step = some Conv.FlowStep.ASK_SEX ∧
        (ext.extract_sex input = none ∨ ext.extract_sex input = some "")) ∨
      (st.flow_step = some Conv.FlowStep.ASK_GROUPEMENT ∧
        (ext.extract_groupement input = none ∨
          ext.extract_groupement input = some 0))) :
    (Conv.account_process ext gs now st input).1.flow_type =
      Conv.FlowType.NONE ∧
    (Conv.account_process ext gs now st input).1.flow_step = none ∧
    (Conv.account_process ext gs now st input).1.collected_data = [] ∧
    (Conv.account_process ext gs now st input).1.attempts = 0 ∧
    (Conv.account_process ext gs now st input).2.2 = true ∧
    ((Conv.account_process ext gs now st input).2.1 = Conv.Msg.nameAbort ∨
      (Conv.account_process ext gs now st input).2.1 = Conv.Msg.ageAbort ∨
      (Conv.account_process ext gs now st input).2.1 = Conv.Msg.sexAbort ∨
      (Conv.account_process ext gs now st input).2.1 =
        Conv.Msg.groupementAbort) := by
  rcases htrig with ⟨hs, he | he⟩ | ⟨hs, he | he⟩ | ⟨hs, he | he⟩ |
    ⟨hs, he | he⟩ <;>
    simp [Conv.account_process, hs, Conv.account_process_name,
      Conv.account_process_age, Conv.account_process_sex,
      Conv.account_process_groupement, he, Conv.account_fail,
      Conv.increment_attempts, Conv.reset_flow, hmax]

theorem Conv.foldSteps_attempts_bound
    (f : ℕ → Conv.ConversationState → String →
      Conv.ConversationState × Conv.Msg × Bool)
    (hf : ∀ (n : ℕ) (s : Conv.ConversationState) (i : String),
      0 < s.max_attempts → s.attempts < s.max_attempts →
      (f n s i).1.attempts < (f n s i).1.max_attempts ∧
      (f n s i).1.max_attempts = s.max_attempts)
    (steps : List (ℕ × String)) (st : Conv.ConversationState)
    (hmax : 0 < st.max_attempts) (hatt : st.attempts < st.max_attempts) :
    (Conv.foldSteps f st steps).attempts <
      (Conv.foldSteps f st steps).max_attempts ∧
    (Conv.foldSteps f st steps).max_attempts = st.max_attempts := by
  induction steps generalizing st with
  | nil => exact ⟨hatt, rfl⟩
  | cons p rest ih =>
    obtain ⟨ha, hb⟩ := hf p.1 st p.2 hmax hatt
    simp only [Conv.foldSteps, List.foldl_cons] at ih ⊢
    obtain ⟨hc, hd⟩ := ih (f p.1 st p.2).1 (by omega) (by omega)
    exact ⟨hc, by omega⟩

/-- C6: across the transfer, withdrawal, topup and account-creation
flows, for every extractor behaviour, every single input and every
sequence of inputs, a state whose attempts counter is below max_attempts
keeps it below max_attempts (so the counter never exceeds max_attempts,
which itself never changes); whenever an abort resets flow_type to None,
the collected data, the attempts counter and the flow step are cleared
together; and whenever an input consumes an attempt that makes the
counter reach max_attempts (the extraction of the asked datum fails, with
one remaining attempt), the flow ABORTS: flow_type is reset to None with
flow_step, collected_data and attempts cleared, the step reports
completion, and the response is the terminal abort message of that
step. -/
theorem C6_attempts_invariant :
    (∀ (now : ℕ) (st : Conv.ConversationState) (input : String),
      0 < st.max_attempts → st.attempts < st.max_attempts →
      (Conv.transfer_process now st input).1.attempts <
        (Conv.transfer_process now st input).1.max_attempts ∧
      (Conv.transfer_process now st input).1.max_attempts =
        st.max_attempts) ∧
    (∀ (ext : Conv.DataExtractorM) (now : ℕ) (st : Conv.ConversationState)
      (input : String),
      0 < st.max_attempts → st.attempts < st.max_attempts →
      (Conv.withdrawal_process ext now st input).1.attempts <
        (Conv.withdrawal_process ext now st input).1.max_attempts ∧
      (Conv.withdrawal_process ext now st input).1.max_attempts =
        st.max_attempts) ∧
    (∀ (ext : Conv.DataExtractorM) (now : ℕ) (st : Conv.ConversationState)
      (input : String),
      0 < st.max_attempts → st.attempts < st.max_attempts →
      (Conv.topup_process ext now st input).1.attempts <
        (Conv.topup_process ext now st input).1.max_attempts ∧
      (Conv.topup_process ext now st input).1.max_attempts =
        st.max_attempts) ∧
    (∀ (ext : Conv.DataExtractorM) (gs : List Conv.Groupement) (now : ℕ)
      (st : Conv.ConversationState) (input : String),
      0 < st.max_attempts → st.attempts < st.max_attempts →
      (Conv.account_process ext gs now st input).1.attempts <
        (Conv.account_process ext gs now st input).1.max_attempts ∧
      (Conv.account_process ext gs now st input).1.max_attempts =
        st.max_attempts) ∧
    (∀ (steps : List (ℕ × String)) (st : Conv.ConversationState),
      0 < st.max_attempts → st.attempts < st.max_attempts →
      (Conv.foldSteps Conv.transfer_process st steps).attempts <
        (Conv.foldSteps Conv.transfer_process st steps).max_attempts ∧
      (Conv.foldSteps Conv.transfer_process st steps).max_attempts =
        st.max_attempts) ∧
    (∀ (ext : Conv.DataExtractorM) (steps : List (ℕ × String))
      (st : Conv.ConversationState),
      0 < st.max_attempts → st.attempts < st.max_attempts →
      (Conv.foldSteps (Conv.withdrawal_process ext) st steps).attempts <
        (Conv.foldSteps (Conv.withdrawal_process ext) st steps).max_attempts) ∧
    (∀ (ext : Conv.DataExtractorM) (steps : List (ℕ × String))
      (st : Conv.ConversationState),
      0 < st.max_attempts → st.attempts < st.max_attempts →
      (Conv.foldSteps (Conv.topup_process ext) st steps).attempts <
        (Conv.foldSteps (Conv.topup_process ext) st steps).max_attempts) ∧
    (∀ (ext : Conv.DataExtractorM) (gs : List Conv.Groupement)
      (steps : List (ℕ × String)) (st : Conv.ConversationState),
      0 < st.max_attempts → st.attempts < st.max_attempts →
      (Conv.foldSteps (Conv.account_process ext gs) st steps).attempts <
        (Conv.foldSteps (Conv.account_process ext gs) st steps).max_attempts) ∧
    (∀ (now : ℕ) (st : Conv.ConversationState) (input : String),
      st.flow_type = Conv.FlowType.TRANSFER →
      (Conv.transfer_process now st input).1.flow_type =
        Conv.FlowType.NONE →
      (Conv.transfer_process now st input).1.collected_data = [] ∧
      (Conv.transfer_process now st input).1.attempts = 0 ∧
      (Conv.transfer_process now st input).1.flow_step = none) ∧
    (∀ (ext : Conv.DataExtractorM) (now : ℕ) (st : Conv.ConversationState)
      (input : String),
      st.flow_type = Conv.FlowType.WITHDRAWAL →
      (Conv.withdrawal_process ext now st input).1.flow_type =
        Conv.FlowType.NONE →
      (Conv.withdrawal_process ext now st input).1.collected_data = [] ∧
      (Conv.withdrawal_process ext now st input).1.attempts = 0 ∧
      (Conv.withdrawal_process ext now st input).1.flow_step = none) ∧
    (∀ (ext : Conv.DataExtractorM) (now : ℕ) (st : Conv.ConversationState)
      (input : String),
      st.flow_type = Conv.FlowType.TOPUP →
      (Conv.topup_process ext now st input).1.flow_type =
        Conv.FlowType.NONE →
      (Conv.topup_process ext now st input).1.collected_data = [] ∧
      (Conv.topup_process ext now st input).1.attempts = 0 ∧
      (Conv.topup_process ext now st input).1.flow_step = none) ∧
    (∀ (ext : Conv.DataExtractorM) (gs : List Conv.Groupement) (now : ℕ)
      (st : Conv.ConversationState) (input : String),
      st.flow_type = Conv.FlowType.ACCOUNT_CREATION →
      (Conv.account_process ext gs now st input).1.flow_type =
        Conv.FlowType.NONE →
      (Conv.account_process ext gs now st input).1.collected_data = [] ∧
      (Conv.account_process ext gs now st input).1.attempts = 0 ∧
      (Conv.account_process ext gs now st input).1.flow_step = none) ∧
    (∀ (now : ℕ) (st : Conv.ConversationState) (input : String),
      st.attempts + 1 ≥ st.max_attempts →
      ((st.flow_step = some Conv.FlowStep.ASK_RECEIVER ∧
          Conv.transfer_extract_phone input = none) ∨
        (st.flow_step = some Conv.FlowStep.ASK_AMOUNT ∧
          Conv.transfer_extract_amount input = none) ∨
        (st.flow_step = some Conv.FlowStep.ASK_PIN ∧
          Conv.transfer_extract_pin input = none)) →
      (Conv.transfer_process now st input).1.flow_type =
        Conv.FlowType.NONE ∧
      (Conv.transfer_process now st input).1.flow_step = none ∧
      (Conv.transfer_process now st input).1.collected_data = [] ∧
      (Conv.transfer_process now st input).1.attempts = 0 ∧
      (Conv.transfer_process now st input).2.2 = true ∧
      ((Conv.transfer_process now st input).2.1 = Conv.Msg.receiverAbort ∨
        (Conv.transfer_process now st input).2.1 = Conv.Msg.amountAbort ∨
        (Conv.transfer_process now st input).2.1 = Conv.Msg.pinAbort)) ∧
    (∀ (ext : Conv.DataExtractorM) (now : ℕ) (st : Conv.ConversationState)
      (input : String),
      st.attempts + 1 ≥ st.max_attempts →
      st.flow_step = some Conv.FlowStep.ASK_AMOUNT →
      (ext.extract_amount input = none ∨
        ext.extract_amount input = some 0) →
      (Conv.withdrawal_process ext now st input).1.flow_type =
        Conv.FlowType.NONE ∧
      (Conv.withdrawal_process ext now st input).1.flow_step = none ∧
      (Conv.withdrawal_process ext now st input).1.collected_data = [] ∧
      (Conv.withdrawal_process ext now st input).1.attempts = 0 ∧
      (Conv.withdrawal_process ext now st input).2.2 = true ∧
      (Conv.withdrawal_process ext now st input).2.1 =
        Conv.Msg.amountAbort) ∧
    (∀ (ext : Conv.DataExtractorM) (now : ℕ) (st : Conv.ConversationState)
      (input : String),
      st.attempts + 1 ≥ st.max_attempts →
      st.flow_step = some Conv.FlowStep.ASK_AMOUNT →
      (ext.extract_amount input = none ∨
        ext.extract_amount input = some 0) →
      (Conv.topup_process ext now st input).1.flow_type =
        Conv.FlowType.NONE ∧
      (Conv.topup_process ext now st input).1.flow_step = none ∧
      (Conv.topup_process ext now st input).1.collected_data = [] ∧
      (Conv.topup_process ext now st input).1.attempts = 0 ∧
      (Conv.topup_process ext now st input).2.2 = true ∧
      (Conv.topup_process ext now st input).2.1 = Conv.Msg.amountAbort) ∧
    (∀ (ext : Conv.DataExtractorM) (gs : List Conv.Groupement) (now : ℕ)
      (st : Conv.ConversationState) (input : String),
      st.attempts + 1 ≥ st.max_attempts →
      ((st.flow_step = some Conv.FlowStep.ASK_NAME ∧
          (ext.extract_name input = none ∨
            ext.extract_name input = some "")) ∨
        (st.flow_step = some Conv.FlowStep.ASK_AGE ∧
          (ext.extract_age input = none ∨ ext.extract_age input = some 0)) ∨
        (st.flow_step = some Conv.FlowStep.ASK_SEX ∧
          (ext.extract_sex input = none ∨
            ext.extract_sex input = some "")) ∨
        (st.flow_step = some Conv.FlowStep.ASK_GROUPEMENT ∧
          (ext.extract_groupement input = none ∨
            ext.extract_groupement input = some 0))) →
      (Conv.account_process ext gs now st input).1.flow_type =
        Conv.FlowType.NONE ∧
      (Conv.account_process ext gs now st input).1.flow_step = none ∧
      (Conv.account_process ext gs now st input).1.collected_data = [] ∧
      (Conv.account_process ext gs now st input).1.attempts = 0 ∧
      (Conv.account_process ext gs now st input).2.2 = true ∧
      ((Conv.account_process ext gs now st input).2.1 =
          Conv.Msg.nameAbort ∨
        (Conv.account_process ext gs now st input).2.1 =
          Conv.Msg.ageAbort ∨
        (Conv.account_process ext gs now st input).2.1 =
          Conv.Msg.sexAbort ∨
        (Conv.account_process ext gs now st input).2.1 =
          Conv.Msg.groupementAbort)) := by
  refine ⟨Conv.transfer_process_attempts_bound,
    Conv.withdrawal_process_attempts_bound,
    Conv.topup_process_attempts_bound,
    Conv.account_process_attempts_bound, ?_, ?_, ?_, ?_,
    Conv.transfer_process_reset_clears,
    Conv.withdrawal_process_reset_clears,
    Conv.topup_process_reset_clears,
    Conv.account_process_reset_clears,
    Conv.transfer_process_abort_on_max,
    Conv.withdrawal_process_abort_on_max,
    Conv.topup_process_abort_on_max,
    Conv.account_process_abort_on_max⟩
  · intro steps st hmax hatt
    exact Conv.foldSteps_attempts_bound Conv.transfer_process
      Conv.transfer_process_attempts_bound steps st hmax hatt
  · intro ext steps st hmax hatt
    exact (Conv.foldSteps_attempts_bound (Conv.withdrawal_process ext)
      (Conv.withdrawal_process_attempts_bound ext) steps st hmax hatt).1
  · intro ext steps st hmax hatt
    exact (Conv.foldSteps_attempts_bound (Conv.topup_process ext)
      (Conv.topup_process_attempts_bound ext) steps st hmax hatt).1
  · intro ext gs steps st hmax hatt
    exact (Conv.foldSteps_attempts_bound (Conv.account_process ext gs)
      (Conv.account_process_attempts_bound ext gs) steps st hmax hatt).1

/-- C6, witness: one concrete transfer-flow step at the ask-amount state
keeps the attempts counter below max_attempts; and at the same state with
two attempts already consumed (one remaining), a third not-understood
input aborts the flow with flow_type reset to None. -/
theorem C6_attempts_invariant_witness :
    ((Conv.transfer_process 1 Conv.askAmountState "abc").1.attempts <
      (Conv.transfer_process 1 Conv.askAmountState "abc").1.max_attempts ∧
    (Conv.transfer_process 1 Conv.askAmountState "abc").1.max_attempts =
      Conv.askAmountState.max_attempts) ∧
    (Conv.transfer_process 1 { Conv.askAmountState with attempts := 2 }
        "abc").1.flow_type = Conv.FlowType.NONE ∧
    (Conv.transfer_process 1 { Conv.askAmountState with attempts := 2 }
        "abc").2.2 = true :=
  ⟨C6_attempts_invariant.1 1 Conv.askAmountState "abc" (by decide)
      (by decide),
    (C6_attempts_invariant.2.2.2.2.2.2.2.2.2.2.2.2.1 1
      { Conv.askAmountState with attempts := 2 } "abc" (by decide)
      (Or.inr (Or.inl ⟨rfl, by decide⟩))).1,
    (C6_attempts_invariant.2.2.2.2.2.2.2.2.2.2.2.2.1 1
      { Conv.askAmountState with attempts := 2 } "abc" (by decide)
      (Or.inr (Or.inl ⟨rfl, by decide⟩))).2.2.2.2.1⟩

theorem Conv.flowType_ofValue_value (ft : Conv.FlowType) :
    Conv.FlowType.ofValue ft.value = ft := by
  cases ft <;> rfl

theorem Conv.flowStep_ofValue_value (s : Conv.FlowStep) :
    Conv.FlowStep.ofValue s.value = s := by
  cases s <;> rfl

/-- C9: saving a ConversationState and loading it back (before TTL
expiry) loses exactly the dynamically attached sticky language — to_dict
writes no lang key, so the reloaded state of every conversation comes
back with no language, and every other field round-trips unchanged.  On a
state whose language was detected as French, the reloaded state has none.
The serialization is therefore not lossless over the data-model fields,
against both the spec and the sticky-language design of the manager. -/
theorem C9_roundtrip_drops_lang :
    (∀ st : Conv.ConversationState,
      Conv.store_roundtrip st = { st with lang := none }) ∧
    (Conv.store_roundtrip Conv.frenchState).lang = none ∧
    Conv.frenchState.lang = some "fr" := by
  refine ⟨?_, rfl, rfl⟩
  intro st
  cases st with
  | mk cid uid ph ft fs cd aid ab pc ae att maxa ca ua lang =>
    simp only [Conv.store_roundtrip, Conv.to_dict, Conv.from_dict,
      Conv.flowType_ofValue_value]
    cases fs <;> simp [Conv.flowStep_ofValue_value]

/-- C8, counterexample: the EntityExtractor normalization turns both the
comma and the period into a decimal point, so the separated strings
10,000 and 10.000 parse to the float 10.0, not to the 10000.0 of the
canonical digit string; only the space separator yields the canonical
value.  The claim that all three separators normalize alike is false. -/
theorem C8_counterexample :
    NLU.parsedMontant "10,000" = some 10 ∧
    NLU.parsedMontant "10.000" = some 10 ∧
    NLU.parsedMontant "10 000" = some 10000 ∧
    NLU.parsedMontant "10000" = some 10000 ∧
    (10 : ℚ) ≠ 10000 := by
  have hsplit : "10.000".toList.splitOn '.' = [['1', '0'], ['0', '0', '0']] := by
    decide
  have hfloat : NLU.pyFloat "10.000" = some 10 := by
    unfold NLU.pyFloat
    rw [hsplit]
    norm_num [Conv.digitsToNat, show '1'.toNat = 49 from rfl,
      show '0'.toNat = 48 from rfl, show '1'.isDigit = true from by decide,
      show '0'.isDigit = true from by decide]
    intro h
    exact absurd h (by decide)
  have h1 : NLU.parsedMontant "10,000" = NLU.pyFloat "10.000" := by
    unfold NLU.parsedMontant
    rw [show NLU.normalizeMontant "10,000" = "10.000" from by decide]
  have h2 : NLU.parsedMontant "10.000" = NLU.pyFloat "10.000" := by
    unfold NLU.parsedMontant
    rw [show NLU.normalizeMontant "10.000" = "10.000" from by decide]
  have h3 : NLU.parsedMontant "10 000" = NLU.pyFloat "10000" := by
    unfold NLU.parsedMontant
    rw [show NLU.normalizeMontant "10 000" = "10000" from by decide]
  have h4 : NLU.parsedMontant "10000" = NLU.pyFloat "10000" := by
    unfold NLU.parsedMontant
    rw [show NLU.normalizeMontant "10000" = "10000" from by decide]
  have hfloat2 : NLU.pyFloat "10000" = some 10000 := by
    unfold NLU.pyFloat
    rw [show "10000".toList.splitOn '.' = [['1', '0', '0', '0', '0']] from by decide]
    norm_num [Conv.digitsToNat, show '1'.toNat = 49 from rfl,
      show '0'.toNat = 48 from rfl, show '1'.isDigit = true from by decide,
      show '0'.isDigit = true from by decide]
    intro h
    exact absurd h (by decide)
  exact ⟨h1 ▸ hfloat, h2 ▸ hfloat, h3 ▸ hfloat2, h4 ▸ hfloat2, by norm_num⟩

theorem Conv.replaceSubAux_single (c : Char) :
    ∀ (fuel : ℕ) (l : List Char), l.length ≤ fuel →
      Conv.replaceSubAux c [] [] fuel l = l.filter (fun x => x ≠ c) := by
  intro fuel
  induction fuel with
  | zero =>
    intro l hl
    cases l with
    | nil => rfl
    | cons d rest => simp at hl
  | succ n ih =>
    intro l hl
    cases l with
    | nil => rfl
    | cons d rest =>
      have hpre : ([c].isPrefixOf (d :: rest)) = (c == d) := by
        simp [List.isPrefixOf]
      simp only [Conv.replaceSubAux, hpre, List.filter_cons]
      by_cases hdc : c = d
      · subst hdc
        simp only [beq_self_eq_true, if_true, List.length_nil,
          List.drop_zero, List.nil_append]
        rw [ih rest (by simpa using hl)]
        simp
      · have : (c == d) = false := beq_false_of_ne hdc
        simp only [this, Bool.false_eq_true, if_false, List.length_nil,
          List.drop_zero]
        rw [ih rest (by simpa using hl)]
        have : (decide (d ≠ c)) = true := by
          simp [Ne.symm hdc]
        simp [this]

theorem Conv.replaceSubAux_not_mem (p : Char) (ps rep : List Char) :
    ∀ (fuel : ℕ) (l : List Char), p ∉ l → l.length ≤ fuel →
      Conv.replaceSubAux p ps rep fuel l = l := by
  intro fuel
  induction fuel with
  | zero =>
    intro l hp hl
    cases l with
    | nil => rfl
    | cons d rest => simp at hl
  | succ n ih =>
    intro l hp hl
    cases l with
    | nil => rfl
    | cons d rest =>
      have hpd : p ≠ d := fun e => hp (e ▸ List.mem_cons_self d rest)
      have hpre : ((p :: ps).isPrefixOf (d :: rest)) = false := by
        simp [List.isPrefixOf, beq_false_of_ne hpd]
      simp only [Conv.replaceSubAux, hpre, Bool.false_eq_true, if_false]
      rw [ih rest (fun hm => hp (List.mem_cons_of_mem d hm))
        (by simpa using hl)]

theorem NLU.amountChars_facts :
    ∀ c ∈ NLU.amountChars, c.toLower = c ∧
      (c.isDigit = true ↔ (c ≠ ' ' ∧ c ≠ ',' ∧ c ≠ '.')) := by
  decide

theorem NLU.map_toLower_id :
    ∀ l : List Char, (∀ c ∈ l, c ∈ NLU.amountChars) →
      l.map Char.toLower = l := by
  intro l
  induction l with
  | nil => intro _; rfl
  | cons c cs ih =>
    intro h
    have hc := (NLU.amountChars_facts c (h c (List.mem_cons_self c cs))).1
    simp only [List.map_cons, hc, List.cons.injEq, true_and]
    exact ih (fun d hd => h d (List.mem_cons_of_mem c hd))

theorem NLU.normalize_space_only :
    ∀ l : List Char, (∀ c ∈ l, c.isDigit = true ∨ c = ' ') →
      ((l.filter (fun c => c ≠ ' ')).filter (fun c => c ≠ '\u00A0')).map
          (fun c => if c = ',' then '.' else c) =
        l.filter Char.isDigit := by
  intro l
  induction l with
  | nil => intro _; rfl
  | cons c cs ih =>
    intro h
    have htail := ih (fun d hd => h d (List.mem_cons_of_mem c hd))
    rcases h c (List.mem_cons_self c cs) with hd | hsp
    · have h1 : c ≠ ' ' := fun e => by subst e; exact absurd hd (by decide)
      have h2 : c ≠ '\u00A0' := fun e => by
        subst e; exact absurd hd (by decide)
      have h3 : c ≠ ',' := fun e => by subst e; exact absurd hd (by decide)
      simpa [List.filter_cons, h1, h2, h3, hd] using htail
    · subst hsp
      simpa [List.filter_cons, show Char.isDigit ' ' = false from by decide]
        using htail

theorem NLU.filter_sep_eq_filter_digit :
    ∀ l : List Char, (∀ c ∈ l, c ∈ NLU.amountChars) →
      ((l.filter (fun c => c ≠ ' ')).filter (fun c => c ≠ ',')).filter
          (fun c => c ≠ '.') =
        l.filter Char.isDigit := by
  intro l
  induction l with
  | nil => intro _; rfl
  | cons c cs ih =>
    intro h
    have htail := ih (fun d hd => h d (List.mem_cons_of_mem c hd))
    have hiff := (NLU.amountChars_facts c (h c (List.mem_cons_self c cs))).2
    by_cases hd : c.isDigit = true
    · obtain ⟨h1, h2, h3⟩ := hiff.mp hd
      simpa [List.filter_cons, h1, h2, h3, hd] using htail
    · have : ¬ (c ≠ ' ' ∧ c ≠ ',' ∧ c ≠ '.') := fun hcon => hd (hiff.mpr hcon)
      push_neg at this
      by_cases hsp : c = ' '
      · subst hsp
        simpa [List.filter_cons, show Char.isDigit ' ' = false from by decide]
          using htail
      · by_cases hcm : c = ','
        · subst hcm
          simpa [List.filter_cons, show Char.isDigit ',' = false from by
            decide] using htail
        · have hdot : c = '.' := this hsp hcm
          subst hdot
          simpa [List.filter_cons, show Char.isDigit '.' = false from by
            decide] using htail

theorem NLU.dropWhile_all_digit :
    ∀ l : List Char, (∀ c ∈ l, c.isDigit = true) →
      l.dropWhile (fun c => ¬ c.isDigit) = l := by
  intro l h
  cases l with
  | nil => rfl
  | cons c cs =>
    have := h c (List.mem_cons_self c cs)
    simp [List.dropWhile_cons, this]

theorem NLU.takeWhile_all_digit :
    ∀ l : List Char, (∀ c ∈ l, c.isDigit = true) →
      l.takeWhile Char.isDigit = l := by
  intro l
  induction l with
  | nil => intro _; rfl
  | cons c cs ih =>
    intro h
    have := h c (List.mem_cons_self c cs)
    simp [List.takeWhile_cons, this,
      ih (fun d hd => h d (List.mem_cons_of_mem c hd))]

/-- C8, amended: an amount string whose separators are spaces normalizes
to exactly the canonical digit string, so the EntityExtractor parses it
to the canonical float; commas and periods are instead treated as a
decimal point there (see the counterexample).  The transfer flow
extractor strips spaces, commas and periods alike, so every amount string
over digits and the three separators parses to the integer of its digit
sequence. -/
theorem C8_amended :
    (∀ s : String, (∀ c ∈ s.toList, c.isDigit = true ∨ c = ' ') →
      NLU.parsedMontant s = NLU.pyFloat (NLU.canonicalDigits s)) ∧
    (∀ s : String, (∀ c ∈ s.toList, c ∈ NLU.amountChars) →
      (∃ c ∈ s.toList, c.isDigit = true) →
      Conv.transfer_extract_amount s =
        some (Int.ofNat
          (Conv.digitsToNat (s.toList.filter Char.isDigit)))) := by
  constructor
  · intro s h
    show NLU.pyFloat (NLU.normalizeMontant s) = _
    unfold NLU.normalizeMontant NLU.canonicalDigits
    rw [NLU.normalize_space_only s.toList h]
  · intro s h hdig
    have h0 : Conv.lowerList s.toList = s.toList := by
      unfold Conv.lowerList
      exact NLU.map_toLower_id s.toList h
    have hx : 'x' ∉ s.toList := fun hm => absurd (h 'x' hm) (by decide)
    have hf : 'f' ∉ s.toList := fun hm => absurd (h 'f' hm) (by decide)
    have e1 : Conv.replaceSub 'x' ['o', 'f'] [] s.toList = s.toList := by
      unfold Conv.replaceSub
      exact Conv.replaceSubAux_not_mem 'x' _ _ _ _ hx (le_refl _)
    have e2 : Conv.replaceSub 'x' ['a', 'f'] [] s.toList = s.toList := by
      unfold Conv.replaceSub
      exact Conv.replaceSubAux_not_mem 'x' _ _ _ _ hx (le_refl _)
    have e3 : Conv.replaceSub 'f' ['c', 'f', 'a'] [] s.toList = s.toList := by
      unfold Conv.replaceSub
      exact Conv.replaceSubAux_not_mem 'f' _ _ _ _ hf (le_refl _)
    have e4 : Conv.replaceSub 'f' ['r', 'a', 'n', 'c', 's'] [] s.toList =
        s.toList := by
      unfold Conv.replaceSub
      exact Conv.replaceSubAux_not_mem 'f' _ _ _ _ hf (le_refl _)
    have e5 : Conv.replaceSub ' ' [] [] s.toList =
        s.toList.filter (fun c => c ≠ ' ') := by
      unfold Conv.replaceSub
      exact Conv.replaceSubAux_single ' ' _ _ (le_refl _)
    have e6 : Conv.replaceSub ',' [] []
        (s.toList.filter (fun c => c ≠ ' ')) =
        (s.toList.filter (fun c => c ≠ ' ')).filter (fun c => c ≠ ',') := by
      unfold Conv.replaceSub
      exact Conv.replaceSubAux_single ',' _ _ (le_refl _)
    have e7 : Conv.replaceSub '.' [] []
        ((s.toList.filter (fun c => c ≠ ' ')).filter (fun c => c ≠ ',')) =
        ((s.toList.filter (fun c => c ≠ ' ')).filter
          (fun c => c ≠ ',')).filter (fun c => c ≠ '.') := by
      unfold Conv.replaceSub
      exact Conv.replaceSubAux_single '.' _ _ (le_refl _)
    have ekey := NLU.filter_sep_eq_filter_digit s.toList h
    have hall : ∀ c ∈ s.toList.filter Char.isDigit, c.isDigit = true :=
      fun c hc => (List.mem_filter.mp hc).2
    have hne : s.toList.filter Char.isDigit ≠ [] := by
      obtain ⟨c, hcmem, hcd⟩ := hdig
      exact List.ne_nil_of_mem (List.mem_filter.mpr ⟨hcmem, hcd⟩)
    have hrun : Conv.firstDigitRun (s.toList.filter Char.isDigit) =
        s.toList.filter Char.isDigit := by
      unfold Conv.firstDigitRun
      rw [NLU.dropWhile_all_digit _ hall, NLU.takeWhile_all_digit _ hall]
    unfold Conv.transfer_extract_amount
    simp only [h0, e1, e2, e3, e4, e5, e6, e7, ekey, hrun]
    rw [if_neg hne]

/-- C8, witness for the amended theorem: the space-separated string
parses like its canonical digit string, and the transfer extractor
accepts the comma-separated string as 10000. -/
theorem C8_amended_witness :
    NLU.parsedMontant "10 000" = NLU.pyFloat (NLU.canonicalDigits "10 000") ∧
    Conv.transfer_extract_amount "10,000" =
      some (Int.ofNat
        (Conv.digitsToNat ("10,000".toList.filter Char.isDigit))) :=
  ⟨C8_amended.1 "10 000" (by decide),
   C8_amended.2 "10,000" (by decide) (by decide)⟩
